import Mathlib

/-!
Verification development for the FuelTrust CO₂ Estimator (`apppyxl.py`).

Shallow embedding of the core logic:
  * spreadsheet cell values as an inductive `PyVal` (Python scalars; Python
    lists are encoded as `nil` / `cons` chains so that all recursion stays
    structural),
  * the xlcalculator evaluator as an external collaborator `Evaluator σ`
    whose `evaluate` / `setCell` operations may fail (modelling a raised
    exception by `Option.none`),
  * the three-tier value resolver `get_value`, the store writer `set_value`
    and the fallback formula table `calculate_fallback`,
  * the EUA instrument matcher (`_match_first`, `pick_eua_3m_item`) on top
    of a small executable matcher for the exact regular expressions in the
    source, the price formatter `_fmt_price`, and the autofill cascade.

Numbers are modelled by `ℚ` (the source computes with Python floats using
only +, -, *, /; the exact-rational reading is the spec's "exact per
formula" semantics).

The recursion `get_value → calculate_fallback → get_value` follows the fixed
acyclic cell-dependency graph of the formula table, whose longest chain is
E16 → E15 → E14 → E13 → E7 (depth 5).  It is embedded with a structural
depth counter fixed at 32, far above any reachable depth, so that all
definitions compute by `decide` / `rfl`; the depth-0 case is unreachable for
every cell of the table.
-/

/-- A Python value as stored in a worksheet cell or returned by the
evaluator.  Python lists are encoded as `nil`/`cons` chains (`cons` is a
list whose head is the first element and whose tail is the rest of the
list), keeping every recursion structural. -/
inductive PyVal where
  | none
  | num (x : ℚ)
  | str (s : String)
  | nil
  | cons (hd tl : PyVal)
deriving DecidableEq, Repr

/-- Python truthiness of a value (`if row[0].value:`): `None`, `0`, the
empty string and the empty list are falsy. -/
def PyVal.truthy : PyVal → Bool
  | PyVal.none => false
  | PyVal.num x => x ≠ 0
  | PyVal.str s => s ≠ ""
  | PyVal.nil => false
  | PyVal.cons _ _ => true

/-- Numeric extraction: `isinstance(v, (int, float))` yields the number. -/
def numOf : PyVal → Option ℚ
  | PyVal.num x => some x
  | _ => Option.none

/-- Whitespace as in Python's `str.strip` / the regex class `\s`
(ASCII range; the product names and numeric strings in scope are ASCII). -/
def isSpacePy (c : Char) : Bool :=
  c = ' ' || c = '\t' || c = '\n' || c = '\r' || c = Char.ofNat 11 || c = Char.ofNat 12

/-- Python `str.strip()` on a character list. -/
def stripChars (l : List Char) : List Char :=
  ((l.dropWhile isSpacePy).reverse.dropWhile isSpacePy).reverse

/-- Python `str.strip()`. -/
def pyStrip (s : String) : String :=
  String.mk (stripChars s.toList)

/-- Value of a digit string (most significant digit first). -/
def digitsVal (ds : List Char) : ℕ :=
  ds.foldl (fun a c => 10 * a + (c.toNat - 48)) 0

/-- Leading sign of a numeric literal: returns (negative?, rest). -/
def splitSign : List Char → Bool × List Char
  | '-' :: r => (true, r)
  | '+' :: r => (false, r)
  | l => (false, l)

/-- Longest digit prefix and the remainder. -/
def takeDigits (l : List Char) : List Char × List Char :=
  (l.takeWhile Char.isDigit, l.dropWhile Char.isDigit)

/-- Unsigned decimal literal `d+[.d*] | d*.d+`; returns its value and the
remaining characters. -/
def parseUnsigned (l : List Char) : Option (ℚ × List Char) :=
  let ip := takeDigits l
  match ip.2 with
  | '.' :: r2 =>
    let fp := takeDigits r2
    if ip.1 = [] ∧ fp.1 = [] then Option.none
    else some ((digitsVal ip.1 : ℚ) + (digitsVal fp.1 : ℚ) / (10 : ℚ) ^ fp.1.length, fp.2)
  | r1 => if ip.1 = [] then Option.none else some ((digitsVal ip.1 : ℚ), r1)

/-- Model of Python's `float(s)` / `Decimal(s)` on strings: optional
whitespace and sign, a decimal literal, optional exponent.  (Exotic forms —
`inf`, `nan`, digit-group underscores — are not modelled; no input of the
claims uses them.) -/
def pyFloat (s : String) : Option ℚ :=
  let l := splitSign (stripChars s.toList)
  match parseUnsigned l.2 with
  | Option.none => Option.none
  | some m =>
    let v : Option ℚ :=
      match m.2 with
      | [] => some m.1
      | 'e' :: r2 =>
        let es := splitSign r2
        let ed := takeDigits es.2
        if ed.1 = [] ∨ ed.2 ≠ [] then Option.none
        else some (m.1 * (10 : ℚ) ^ (if es.1 then -(digitsVal ed.1 : ℤ) else (digitsVal ed.1 : ℤ)))
      | 'E' :: r2 =>
        let es := splitSign r2
        let ed := takeDigits es.2
        if ed.1 = [] ∨ ed.2 ≠ [] then Option.none
        else some (m.1 * (10 : ℚ) ^ (if es.1 then -(digitsVal ed.1 : ℤ) else (digitsVal ed.1 : ℤ)))
      | _ => Option.none
    match v with
    | Option.none => Option.none
    | some x => some (if l.1 then -x else x)

/-- `float(Decimal(str(p)))` on an arbitrary value: numbers pass through,
strings are parsed, everything else (`None`, lists) makes `Decimal` raise. -/
def pyDecimalOfVal : PyVal → Option ℚ
  | PyVal.num x => some x
  | PyVal.str s => pyFloat s
  | _ => Option.none

/-- The external live-formula evaluator (xlcalculator), an external
collaborator with hidden state `σ`.  `evaluate` returns the cell's current
value or fails (`Option.none` models a raised exception, caught by the
caller); `setCell` writes a value into the evaluator's backing state and may
likewise fail. -/
structure Evaluator (σ : Type) where
  evaluate : σ → String → Option PyVal
  setCell : σ → String → PyVal → Option σ

/-- The mutable program state: the `Ship Estimator` sheet (cell address ↦
stored value), the read-only `LookupTables` sheet and the evaluator's hidden
state. -/
structure State (σ : Type) where
  sheet : String → PyVal
  lookup : String → PyVal
  ev : σ

/-- `xl_addr = lambda sheet, cell: f"'{sheet}'!{cell.upper()}"`. -/
def xl_addr (sheet : String) (cell : String) : String :=
  "'" ++ sheet ++ "'!" ++ String.mk (cell.toList.map Char.toUpper)

/-- `_flatten`: unwrap degenerate single-element nested lists
(`while isinstance(val, list) and len(val) == 1: val = val[0]`). -/
def _flatten : PyVal → PyVal
  | PyVal.cons v PyVal.nil => _flatten v
  | v => v

/-- `set_value(cell, value)`: write the raw value into the sheet store, then
try to push it into the evaluator's backing state, swallowing any exception
from the evaluator. -/
def set_value {σ : Type} (E : Evaluator σ) (s : State σ) (cell : String) (v : PyVal) : State σ :=
  let sheet2 : String → PyVal := fun k => if k = cell then v else s.sheet k
  match E.setCell s.ev (xl_addr "Ship Estimator" cell) v with
  | some ev2 => { sheet := sheet2, lookup := s.lookup, ev := ev2 }
  | Option.none => { sheet := sheet2, lookup := s.lookup, ev := s.ev }

/-- Tier 1 of the resolver: the evaluator's answer for the cell, flattened,
if it is a number (`None` when the evaluator raised or the flattened value
is not an `int`/`float`). -/
def evalNum {σ : Type} (E : Evaluator σ) (s : State σ) (cell : String) : Option ℚ :=
  match E.evaluate s.ev (xl_addr "Ship Estimator" cell) with
  | some v => numOf (_flatten v)
  | Option.none => Option.none

/-- `safe_float(cell_key, sheet)`: the cell's value as a float, with `None`
and anything that fails `float()` conversion treated as `0.0`. -/
def safe_float (sheet : String → PyVal) (key : String) : ℚ :=
  match sheet key with
  | PyVal.none => 0
  | PyVal.num x => x
  | PyVal.str t => (pyFloat t).getD 0
  | PyVal.nil => 0
  | PyVal.cons _ _ => 0

/-- `fuel_options = [row[0].value for row in lookup_sheet["A43:A64"] if row[0].value]`:
the truthy values of lookup cells A43–A64, in order. -/
def fuel_options (lookup : String → PyVal) : List PyVal :=
  ((List.range 22).map (fun i => lookup ("A" ++ toString (43 + i)))).filter PyVal.truthy

/-- `cf_row = fuel_options.index(fuel_type) if fuel_type in fuel_options else 0`:
position of the selected fuel type in the fuel list, 0 when absent. -/
def cf_row (lookup : String → PyVal) (fuel_type : PyVal) : ℕ :=
  if (fuel_options lookup).contains fuel_type then (fuel_options lookup).indexOf fuel_type else 0

/-- Body of `calculate_fallback(cell)`, parameterised by the `get_value`
function used for dependent metrics (the source calls the global
`get_value`; the stratified resolver below instantiates `gv`). -/
def calculate_fallbackAux {σ : Type}
    (gv : State σ → String → Option ℚ × State σ)
    (s : State σ) (cell : String) : Option ℚ × State σ :=
  let sea_days := safe_float s.sheet "B16"
  let port_days := safe_float s.sheet "B17"
  let total_days := sea_days + port_days
  if total_days = 0 then (Option.none, s)
  else if cell = "B18" then
    (some (sea_days * safe_float s.sheet "B7" + port_days * safe_float s.sheet "B8"), s)
  else if cell = "E6" then
    (some ((safe_float s.sheet "B10" * sea_days + safe_float s.sheet "B11" * port_days) / total_days), s)
  else if cell = "E7" then
    let fuel_type := s.sheet "B19"
    let row := cf_row s.lookup fuel_type
    let cf := safe_float s.lookup ("B" ++ toString (43 + row))
    let total_fuel := safe_float s.sheet "B10" * sea_days + safe_float s.sheet "B11" * port_days
    (some (total_fuel * cf), s)
  else if cell = "E8" then
    let co2_over := safe_float s.sheet "B21"
    let r := gv s "E7"
    (some (r.1.getD 0 * (1 - co2_over)), r.2)
  else if cell = "E9" then
    let r7 := gv s "E7"
    let r8 := gv r7.2 "E8"
    (some (r7.1.getD 0 - r8.1.getD 0), r8.2)
  else if cell = "E10" then
    let eu_eu_pct := safe_float s.sheet "B12"
    let in_out_pct := safe_float s.sheet "B13"
    let r := gv s "E7"
    (some (r.1.getD 0 * (eu_eu_pct + in_out_pct * 0.5)), r.2)
  else if cell = "E11" then
    let eua_price := safe_float s.sheet "B26"
    let r := gv s "E10"
    (some (r.1.getD 0 * eua_price * 0.4), r.2)
  else if cell = "E12" then
    let eu_eu_pct := safe_float s.sheet "B12"
    let in_out_pct := safe_float s.sheet "B13"
    let r := gv s "E9"
    (some (r.1.getD 0 * (eu_eu_pct + in_out_pct * 0.5)), r.2)
  else if cell = "E13" then
    let r := gv s "E7"
    (some (r.1.getD 0 * 1.50419), r.2)
  else if cell = "E14" then
    let r := gv s "E13"
    (some (r.1.getD 0 * (1 - 0.0412)), r.2)
  else if cell = "E15" then
    let r13 := gv s "E13"
    let r14 := gv r13.2 "E14"
    (some (r13.1.getD 0 - r14.1.getD 0), r14.2)
  else if cell = "E16" ∨ cell = "E17" ∨ cell = "E18" ∨ cell = "E19" then
    let year : ℕ := if cell = "E16" then 2025 else if cell = "E17" then 2026
      else if cell = "E18" then 2027 else 2028
    let liability_pct : ℚ := [(0.4 : ℚ), 0.7, 1.0, 1.0].getD (year - 2025) 0
    let eua := safe_float s.sheet "B26"
    let r := gv s "E15"
    (some (r.1.getD 0 * eua * liability_pct), r.2)
  else if cell = "E21" then
    let fraud_pct := safe_float s.sheet "B23"
    let eua := safe_float s.sheet "B26"
    let r := gv s "E7"
    (some (r.1.getD 0 * fraud_pct * eua), r.2)
  else (Option.none, s)

/-- Depth-stratified `get_value`: tier 1 asks the evaluator; tier 2 runs the
fallback formula and writes a produced number back through `set_value`;
tier 3 returns the cached sheet value when numeric.  The depth counter only
bounds the `get_value → calculate_fallback → get_value` nesting, which the
fixed formula table keeps at ≤ 5. -/
def get_valueF {σ : Type} (E : Evaluator σ) : ℕ → State σ → String → Option ℚ × State σ
  | 0, s, _ => (Option.none, s)
  | n + 1, s, cell =>
    match evalNum E s cell with
    | some x => (some x, s)
    | Option.none =>
      let r := calculate_fallbackAux (get_valueF E n) s cell
      match r.1 with
      | some v => (some v, set_value E r.2 cell (PyVal.num v))
      | Option.none => (numOf (r.2.sheet cell), r.2)

/-- `calculate_fallback(cell)` as called from `get_value` and from module
level: the formula table with its dependent reads resolved by `get_value`
(at the next stratification level, which no chain of the table exhausts). -/
def calculate_fallback {σ : Type} (E : Evaluator σ) (s : State σ) (cell : String) :
    Option ℚ × State σ :=
  calculate_fallbackAux (get_valueF E 31) s cell

/-- `get_value(cell)`: the three-tier resolver of the source. -/
def get_value {σ : Type} (E : Evaluator σ) (s : State σ) (cell : String) :
    Option ℚ × State σ :=
  get_valueF E 32 s cell

/-! ## EUA 3-month instrument selection (`_match_first`, `pick_eua_3m_item`) -/

/-- Word characters for the regex `\b` assertion (`\w`, ASCII range). -/
def isWordChar (c : Char) : Bool := c.isAlphanum || c = '_'

/-- Is position `i` of the character list a word character? (out of range:
no). -/
def wordAt (cs : List Char) (i : ℕ) : Bool :=
  match cs.get? i with
  | some c => isWordChar c
  | Option.none => false

/-- The regex word-boundary assertion `\b` at position `i`. -/
def wordBoundary (cs : List Char) (i : ℕ) : Bool :=
  (if i = 0 then false else wordAt cs (i - 1)) != wordAt cs i

/-- The regex end-anchor `$` (also matches just before a final newline). -/
def atEos (cs : List Char) (i : ℕ) : Bool :=
  i == cs.length || (i + 1 == cs.length && cs.get? i == some '\n')

/-- One token of the regular expressions used by the source: a literal
character, a one-character class with `*` or `?`, and the zero-width
assertions `\b`, `^`, `$`.  (The source's six patterns use no other
constructs; the group in `(s)?` only wraps a single literal.) -/
inductive RTok where
  | lit (c : Char)
  | star (f : Char → Bool)
  | opt (f : Char → Bool)
  | bword
  | bos
  | eos

/-- Positions reachable from `i` by consuming zero or more characters of
the suffix `rest` (which starts at position `i`) that satisfy `f`. -/
def starReach (f : Char → Bool) : List Char → ℕ → List ℕ
  | [], i => [i]
  | c :: rest, i => if f c then i :: starReach f rest (i + 1) else [i]

/-- All end positions of a match of the token list `p` starting at
position `i` of `cs` (backtracking by collecting every alternative). -/
def matchEnds (cs : List Char) : List RTok → ℕ → List ℕ
  | [], i => [i]
  | RTok.lit c :: ps, i =>
    match cs.get? i with
    | some d => if d = c then matchEnds cs ps (i + 1) else []
    | Option.none => []
  | RTok.star f :: ps, i => (starReach f (cs.drop i) i).flatMap (fun j => matchEnds cs ps j)
  | RTok.opt f :: ps, i =>
    matchEnds cs ps i ++
      (match cs.get? i with
      | some d => if f d then matchEnds cs ps (i + 1) else []
      | Option.none => [])
  | RTok.bword :: ps, i => if wordBoundary cs i then matchEnds cs ps i else []
  | RTok.bos :: ps, i => if i = 0 then matchEnds cs ps i else []
  | RTok.eos :: ps, i => if atEos cs i then matchEnds cs ps i else []

/-- `re.search` with `re.IGNORECASE`: does the pattern match anywhere in
the string?  Case-insensitivity is realised by lowercasing the subject
(the six patterns contain only lowercase letters, digits and symbols). -/
def rsearch (p : List RTok) (s : String) : Bool :=
  let cs := s.toList.map Char.toLower
  (List.range (cs.length + 1)).any (fun i => !(matchEnds cs p i).isEmpty)

/-- The regex `.` (any character but newline). -/
def anyChar (c : Char) : Bool := c != '\n'

/-- A run of literal characters. -/
def lits (s : String) : List RTok := s.toList.map RTok.lit

/-- `r"\beua\b.*\b3m\b"`. -/
def pat_eua_3m_1 : List RTok :=
  [RTok.bword] ++ lits "eua" ++ [RTok.bword, RTok.star anyChar, RTok.bword] ++ lits "3m" ++ [RTok.bword]

/-- `r"\beua-?3m\b"`. -/
def pat_eua_3m_2 : List RTok :=
  [RTok.bword] ++ lits "eua" ++ [RTok.opt (fun c => c == '-')] ++ lits "3m" ++ [RTok.bword]

/-- `r"\beua\b.*\b3[-\s]?month(s)?\b"`. -/
def pat_eua_3m_3 : List RTok :=
  [RTok.bword] ++ lits "eua" ++ [RTok.bword, RTok.star anyChar, RTok.bword] ++ lits "3" ++
    [RTok.opt (fun c => c == '-' || isSpacePy c)] ++ lits "month" ++ [RTok.opt (fun c => c == 's'), RTok.bword]

/-- `r"\beua\b.*\bq\+?1\b"`. -/
def pat_eua_3m_4 : List RTok :=
  [RTok.bword] ++ lits "eua" ++ [RTok.bword, RTok.star anyChar, RTok.bword] ++ lits "q" ++
    [RTok.opt (fun c => c == '+')] ++ lits "1" ++ [RTok.bword]

/-- `EUA_3M_PATTERNS`, in source order. -/
def EUA_3M_PATTERNS : List (List RTok) :=
  [pat_eua_3m_1, pat_eua_3m_2, pat_eua_3m_3, pat_eua_3m_4]

/-- `r"^\s*eua\s*$"`. -/
def pat_eua_fb_1 : List RTok :=
  [RTok.bos, RTok.star isSpacePy] ++ lits "eua" ++ [RTok.star isSpacePy, RTok.eos]

/-- `r"^\s*eua\b"`. -/
def pat_eua_fb_2 : List RTok :=
  [RTok.bos, RTok.star isSpacePy] ++ lits "eua" ++ [RTok.bword]

/-- `EUA_FALLBACK_PATTERNS`, in source order. -/
def EUA_FALLBACK_PATTERNS : List (List RTok) :=
  [pat_eua_fb_1, pat_eua_fb_2]

/-- A record of the Vertis price list (a JSON object).  `product_name` is
`Option`al so that a record lacking the key is representable; the other
fields conflate a missing key with a `None` value, exactly as the source's
`dict.get(...)`-with-`None` reads do. -/
structure QuoteItem where
  product_name : Option PyVal
  price : PyVal
  currency : PyVal
  updated_at : PyVal
deriving DecidableEq

/-- Python integer / float rendering, an approximation of `str()` on our
merged numeric type (integral values print without a fractional part; no
claim depends on the exact shape of non-integral renderings). -/
def pyNumStr (x : ℚ) : String :=
  if x.den = 1 then toString x.num else toString x.num ++ "/" ++ toString x.den

/-- `str`/`repr` of a value, with list rendering cut off at nesting depth
32 (`true` flag: rendering the tail of a list).  Faithful for every value
of bounded nesting depth; only reachable through record fields holding
non-string junk, where no claim inspects the exact rendering. -/
def pyReprF : ℕ → Bool → PyVal → String
  | _, false, PyVal.none => "None"
  | _, false, PyVal.num x => pyNumStr x
  | _, false, PyVal.str s => String.singleton (Char.ofNat 39) ++ s ++ String.singleton (Char.ofNat 39)
  | _, false, PyVal.nil => "[]"
  | 0, false, PyVal.cons _ _ => "[?]"
  | n + 1, false, PyVal.cons h t => "[" ++ pyReprF n false h ++ pyReprF n true t
  | _, true, PyVal.nil => "]"
  | 0, true, PyVal.cons _ _ => ", ?]"
  | n + 1, true, PyVal.cons h t => ", " ++ pyReprF n false h ++ pyReprF n true t
  | _, true, _ => "?]"

/-- Python `str()` of a value (`str` of a string is the string itself;
lists render their elements by `repr`). -/
def pyStr : PyVal → String
  | PyVal.none => "None"
  | PyVal.num x => pyNumStr x
  | PyVal.str s => s
  | PyVal.nil => "[]"
  | PyVal.cons h t => pyReprF 32 false (PyVal.cons h t)

/-- `str(it.get("product_name", "")).strip()`. -/
def nameKey (it : QuoteItem) : String :=
  pyStrip (pyStr (it.product_name.getD (PyVal.str "")))

/-- Inner loop of `_match_first`: the first record (in source order) whose
product name matches the pattern. -/
def _find_item (p : List RTok) : List QuoteItem → Option QuoteItem
  | [] => Option.none
  | it :: rest => if rsearch p (nameKey it) then some it else _find_item p rest

/-- `_match_first(items, patterns)`: iterate the patterns in priority
order and, within a pattern, the records in source order; return the first
match. -/
def _match_first (items : List QuoteItem) : List (List RTok) → Option QuoteItem
  | [] => Option.none
  | p :: ps =>
    match _find_item p items with
    | some it => some it
    | Option.none => _match_first items ps

/-- `pick_eua_3m_item(items)`: the primary 3-month pattern cascade, then
the looser fallback patterns.  (The source's `it or _match_first(...)`
tests dict truthiness; the records modelled here are nonempty objects, for
which truthiness coincides with being present.) -/
def pick_eua_3m_item (items : List QuoteItem) : Option QuoteItem :=
  match _match_first items EUA_3M_PATTERNS with
  | some it => some it
  | Option.none => _match_first items EUA_FALLBACK_PATTERNS

/-! ## Price formatting (`_fmt_price`) and the autofill cascade -/

/-- `CURRENCY_SYMBOLS = {"EUR": "€", "GBP": "£", "USD": "$"}`. -/
def CURRENCY_SYMBOLS : List (String × String) :=
  [("EUR", "€"), ("GBP", "£"), ("USD", "$")]

/-- `Decimal.quantize(Decimal("0.01"))` with the default `ROUND_HALF_EVEN`:
the number of cents, rounding ties to the even integer. -/
def roundHalfEvenCents (x : ℚ) : ℤ :=
  let y := 100 * x
  let f := ⌊y⌋
  let r := y - f
  if r < 1/2 then f else if 1/2 < r then f + 1 else if f % 2 = 0 then f else f + 1

/-- Two-digit rendering of a cents remainder. -/
def pad2 (n : ℕ) : String :=
  if n < 10 then "0" ++ toString n else toString n

/-- `str()` of a `Decimal` quantized to two fractional places. -/
def fmtCents (c : ℤ) : String :=
  (if c < 0 then "-" else "") ++ toString (c.natAbs / 100) ++ "." ++ pad2 (c.natAbs % 100)

/-- `_fmt_price(p, currency_code)`: quantize the decimal reading of the
price to 2 places (round-half-even) and prefix a known currency symbol;
degrade to `f"{p} {currency_code or ''}".strip()` when `Decimal(str(p))`
raises.  (The `Decimal` context's 28-digit precision limit — only reachable
for astronomically large prices — is not modelled.) -/
def _fmt_price (p : PyVal) (currency_code : String) : String :=
  match pyDecimalOfVal p with
  | Option.none => pyStrip (pyStr p ++ " " ++ currency_code)
  | some d =>
    let q := fmtCents (roundHalfEvenCents d)
    let sym := (CURRENCY_SYMBOLS.lookup currency_code).getD ""
    if sym ≠ "" then sym ++ q else pyStrip (q ++ " " ++ currency_code)

/-- The module-level EUA-price autofill cascade (source lines 256–279),
parameterised by the outcomes of its two external collaborators:
`fetch` is the result of `fetch_vertis_prices` (`Option.none` models a
raised exception) and `scrape` the result of `get_live_eua_price` (which
catches internally and returns `None` on any failure).  Returns the final
state, `autofill_source`, `vertis_item` and `ticker_price`. -/
def autofill {σ : Type} (E : Evaluator σ) (token : String)
    (fetch : Option (List QuoteItem)) (scrape : Option ℚ) (s : State σ) :
    State σ × Option String × Option QuoteItem × Option ℚ :=
  let step1 : State σ × Option String × Option QuoteItem × Option ℚ :=
    if token ≠ "" ∧ token ≠ "YOUR_VERTIS_TOKEN_HERE" then
      match fetch with
      | Option.none => (s, Option.none, Option.none, Option.none)
      | some prices =>
        match pick_eua_3m_item prices with
        | some it =>
          if it.price ≠ PyVal.none then
            match pyDecimalOfVal it.price with
            | some t =>
              (set_value E s "B26" (PyVal.num t), some "Vertis 3‑Month", some it, some t)
            | Option.none => (s, Option.none, some it, Option.none)
          else (s, Option.none, some it, Option.none)
        | Option.none => (s, Option.none, Option.none, Option.none)
    else (s, Option.none, Option.none, Option.none)
  let s1 := step1.1
  let src1 := step1.2.1
  let vi := step1.2.2.1
  let tick := step1.2.2.2
  let step2 : State σ × Option String :=
    if tick = Option.none then
      match scrape with
      | some lp => (set_value E s1 "B26" (PyVal.num lp), some "EEX Spot")
      | Option.none => (s1, src1)
    else (s1, src1)
  let r := get_value E step2.1 "B26"
  let s3 := if r.1 = Option.none then set_value E r.2 "B26" (PyVal.num 67.6) else r.2
  (s3, step2.2, vi, tick)

/-! ## Shared helpers for the claim theorems -/

/-- One-step unfolding of the resolver in terms of the named
`calculate_fallback` (definitional: `get_value` sits one stratification
level above the `calculate_fallback` it invokes). -/
theorem get_value_eq {σ : Type} (E : Evaluator σ) (s : State σ) (cell : String) :
    get_value E s cell =
      match evalNum E s cell with
      | some x => (some x, s)
      | Option.none =>
        match (calculate_fallback E s cell).1 with
        | some v => (some v, set_value E (calculate_fallback E s cell).2 cell (PyVal.num v))
        | Option.none =>
          (numOf ((calculate_fallback E s cell).2.sheet cell), (calculate_fallback E s cell).2) :=
  rfl

/-- An evaluator whose `evaluate` always raises (the situation the fallback
path of the source exists for) and whose `setCell` always succeeds without
observable effect. -/
def failEv : Evaluator Unit :=
  { evaluate := fun _ _ => Option.none, setCell := fun u _ _ => some u }

/-- The spec's §8 fixed input vector: sea_days=180, port_days=185,
nm_per_sea_day=220, nm_per_port_day=0, fuel_sea=28, fuel_port=4, fuel type
at lookup index 0. -/
def demoSheetC2 : String → PyVal := fun k =>
  if k = "B16" then PyVal.num 180 else if k = "B17" then PyVal.num 185
  else if k = "B7" then PyVal.num 220 else if k = "B8" then PyVal.num 0
  else if k = "B10" then PyVal.num 28 else if k = "B11" then PyVal.num 4
  else if k = "B19" then PyVal.str "HFO" else PyVal.none

/-- Lookup table with a single fuel row: name "HFO" (A43), coefficient
3.206 (B43). -/
def demoLookupC2 : String → PyVal := fun k =>
  if k = "A43" then PyVal.str "HFO" else if k = "B43" then PyVal.num (mkRat 3206 1000)
  else PyVal.none

/-- The spec's §8 state, paired with the always-failing evaluator. -/
def demoStateC2 : State Unit :=
  { sheet := demoSheetC2, lookup := demoLookupC2, ev := () }

/-! ## Claim C1 -/

/-- Claim C1: whenever the stored inputs sea_days (B16) and port_days (B17)
are both zero, the fallback computation returns absent — for every metric
(so in particular for the table cells B18, E6–E19, E21), every state of the
other inputs, every lookup table and every evaluator — and leaves the state
untouched; consequently the resolver as a whole returns absent whenever its
two other tiers (live evaluation and the cached value) also yield no
number. -/
theorem C1_zero_days_fallback_absent {σ : Type} (E : Evaluator σ) (s : State σ)
    (h16 : s.sheet "B16" = PyVal.num 0) (h17 : s.sheet "B17" = PyVal.num 0) (cell : String) :
    (calculate_fallback E s cell).1 = Option.none ∧
    (calculate_fallback E s cell).2 = s ∧
    (evalNum E s cell = Option.none → numOf (s.sheet cell) = Option.none →
      (get_value E s cell).1 = Option.none) := by
  have hsf16 : safe_float s.sheet "B16" = 0 := by rw [safe_float, h16]
  have hsf17 : safe_float s.sheet "B17" = 0 := by rw [safe_float, h17]
  have hfb : calculate_fallback E s cell = (Option.none, s) := by
    rw [calculate_fallback, calculate_fallbackAux]
    simp only [hsf16, hsf17]
    rw [if_pos (by norm_num)]
  refine ⟨by rw [hfb], by rw [hfb], ?_⟩
  intro hev hcache
  rw [get_value_eq, hev, hfb, hcache]

/-- Witness for C1: with both day inputs zero, a failing evaluator and an
otherwise empty sheet, both the fallback table and the resolver report E7
as absent. -/
theorem C1_zero_days_fallback_absent_witness :
    (calculate_fallback failEv
        { sheet := fun k => if k = "B16" then PyVal.num 0 else if k = "B17" then PyVal.num 0
            else PyVal.none,
          lookup := fun _ => PyVal.none, ev := () } "E7").1 = Option.none ∧
    (get_value failEv
        { sheet := fun k => if k = "B16" then PyVal.num 0 else if k = "B17" then PyVal.num 0
            else PyVal.none,
          lookup := fun _ => PyVal.none, ev := () } "E7").1 = Option.none := by
  refine ⟨(C1_zero_days_fallback_absent failEv _ (by decide) (by decide) "E7").1, ?_⟩
  exact (C1_zero_days_fallback_absent failEv _ (by decide) (by decide) "E7").2.2
    (by decide) (by decide)

/-! ## Claim C2 -/

/-- Counterexample to C2 as stated: at the claimed fixed input vector the
fallback computes avg_daily_fuel (E6) = 5780/365 = 15.8356… and annex2_co2
(E7) = 5780·3.206 = 18530.68 exactly; these are not ≈ 15.87 (off by more
than 0.03) and not ≈ 18074.6 (off by more than 400), so the numeric
approximations asserted by the claim are false of the code. -/
theorem C2_fixed_vector_counterexample :
    (calculate_fallback failEv demoStateC2 "E6").1 = some (mkRat 5780 365) ∧
    |(mkRat 5780 365 : ℚ) - mkRat 1587 100| > 3/100 ∧
    (calculate_fallback failEv demoStateC2 "E7").1 = some (mkRat 1853068 100) ∧
    |(mkRat 1853068 100 : ℚ) - mkRat 180746 10| > 400 := by
  have h16 : safe_float demoSheetC2 "B16" = 180 := by decide
  have h17 : safe_float demoSheetC2 "B17" = 185 := by decide
  have h10 : safe_float demoSheetC2 "B10" = 28 := by decide
  have h11 : safe_float demoSheetC2 "B11" = 4 := by decide
  have h19 : demoSheetC2 "B19" = PyVal.str "HFO" := by decide
  have hrow : cf_row demoLookupC2 (PyVal.str "HFO") = 0 := by decide
  have haddr : ("B" ++ toString (43 + 0) : String) = "B43" := by decide
  have hcf : safe_float demoLookupC2 "B43" = mkRat 3206 1000 := by decide
  refine ⟨?_, ?_, ?_, ?_⟩
  · simp only [calculate_fallback, calculate_fallbackAux, demoStateC2, h16, h17, h10, h11]
    norm_num [Rat.mkRat_eq_div]
    simp
  · rw [Rat.mkRat_eq_div, Rat.mkRat_eq_div]
    rw [abs_of_neg (by norm_num)]
    norm_num
  · simp only [calculate_fallback, calculate_fallbackAux, demoStateC2, h16, h17, h10, h11,
      h19, hrow, haddr, hcf]
    norm_num [Rat.mkRat_eq_div]
    simp
  · rw [Rat.mkRat_eq_div, Rat.mkRat_eq_div]
    rw [abs_of_pos (by norm_num)]
    norm_num

/-- Claim C2 as amended: at the fixed input vector (sea_days=180,
port_days=185, nm_per_sea_day=220, nm_per_port_day=0, fuel_sea=28,
fuel_port=4, coefficient 3.206 at fuel index 0) the fallback yields
annual_distance (B18) = 180·220 = 39600, avg_daily_fuel (E6) =
(28·180+4·185)/365 = 5780/365 ≈ 15.84, and annex2_co2 (E7) =
(28·180+4·185)·3.206 = 18530.68 exactly. -/
theorem C2_fixed_vector_amended :
    (calculate_fallback failEv demoStateC2 "B18").1 = some 39600 ∧
    (calculate_fallback failEv demoStateC2 "E6").1 = some ((28 * 180 + 4 * 185 : ℚ) / 365) ∧
    (calculate_fallback failEv demoStateC2 "E7").1 =
      some ((28 * 180 + 4 * 185 : ℚ) * mkRat 3206 1000) := by
  have h16 : safe_float demoSheetC2 "B16" = 180 := by decide
  have h17 : safe_float demoSheetC2 "B17" = 185 := by decide
  have h7 : safe_float demoSheetC2 "B7" = 220 := by decide
  have h8 : safe_float demoSheetC2 "B8" = 0 := by decide
  have h10 : safe_float demoSheetC2 "B10" = 28 := by decide
  have h11 : safe_float demoSheetC2 "B11" = 4 := by decide
  have h19 : demoSheetC2 "B19" = PyVal.str "HFO" := by decide
  have hrow : cf_row demoLookupC2 (PyVal.str "HFO") = 0 := by decide
  have haddr : ("B" ++ toString (43 + 0) : String) = "B43" := by decide
  have hcf : safe_float demoLookupC2 "B43" = mkRat 3206 1000 := by decide
  refine ⟨?_, ?_, ?_⟩
  · simp only [calculate_fallback, calculate_fallbackAux, demoStateC2, h16, h17, h7, h8]
    norm_num
  · simp only [calculate_fallback, calculate_fallbackAux, demoStateC2, h16, h17, h10, h11]
    norm_num
    simp
  · simp only [calculate_fallback, calculate_fallbackAux, demoStateC2, h16, h17, h10, h11,
      h19, hrow, haddr, hcf]
    norm_num [Rat.mkRat_eq_div]
    simp

/-! ## Claim C3 -/

/-- The sheet store after `set_value`: the written cell holds the written
value, every other cell is unchanged (whether or not the evaluator accepted
the write). -/
theorem set_value_sheet {σ : Type} (E : Evaluator σ) (s : State σ) (cell k : String)
    (v : PyVal) : (set_value E s cell v).sheet k = if k = cell then v else s.sheet k := by
  rw [set_value]
  cases E.setCell s.ev (xl_addr "Ship Estimator" cell) v <;> rfl

/-- Claim C3: the resolver follows the strict three-tier order.  (1) If the
primary evaluator produces a number for the metric (after flattening a
degenerate singleton list wrapper), that number is returned at once and the
state is untouched.  (2) Otherwise, if the fallback formula produces a
number, that number is written back through `set_value` (into the sheet
store unconditionally, and into the evaluator's backing state whenever the
evaluator accepts the write) and returned.  (3) Otherwise the last cached
stored value is returned if numeric, absent if missing or non-numeric. -/
theorem C3_resolver_three_tiers {σ : Type} (E : Evaluator σ) (s : State σ) (cell : String) :
    (∀ x, evalNum E s cell = some x → get_value E s cell = (some x, s)) ∧
    (evalNum E s cell = Option.none →
      ∀ v s', calculate_fallback E s cell = (some v, s') →
        get_value E s cell = (some v, set_value E s' cell (PyVal.num v)) ∧
        (set_value E s' cell (PyVal.num v)).sheet cell = PyVal.num v) ∧
    (evalNum E s cell = Option.none →
      ∀ s', calculate_fallback E s cell = (Option.none, s') →
        get_value E s cell = (numOf (s'.sheet cell), s')) := by
  refine ⟨?_, ?_, ?_⟩
  · intro x h
    rw [get_value_eq, h]
  · intro h v s' hfb
    constructor
    · rw [get_value_eq, h, hfb]
    · rw [set_value_sheet, if_pos rfl]
  · intro h s' hfb
    rw [get_value_eq, h, hfb]

/-- An evaluator that answers every query with the singleton-nested list
`[[7]]`-style value `[7]` (exercising the `_flatten` step of tier 1). -/
def okEv7 : Evaluator Unit :=
  { evaluate := fun _ _ => some (PyVal.cons (PyVal.num 7) PyVal.nil),
    setCell := fun u _ _ => some u }

/-- A small state for the C3 witness: sea_days = 1, fuel_sea = 2, all other
inputs empty. -/
def sC3 : State Unit :=
  { sheet := fun k => if k = "B16" then PyVal.num 1 else if k = "B10" then PyVal.num 2
      else PyVal.none,
    lookup := fun _ => PyVal.none, ev := () }

/-- Witness for C3: tier 1 returns the evaluator's flattened number 7 for
E6 untouched; with a failing evaluator the fallback value 2 is computed for
E6 and written back; and for B26 (no formula, empty cache) the resolver
reports absent. -/
theorem C3_resolver_three_tiers_witness :
    get_value okEv7 sC3 "E6" = (some 7, sC3) ∧
    get_value failEv sC3 "E6" = (some 2, set_value failEv sC3 "E6" (PyVal.num 2)) ∧
    (get_value failEv sC3 "B26").1 = Option.none := by
  have hsf16 : safe_float sC3.sheet "B16" = 1 := by decide
  have hsf17 : safe_float sC3.sheet "B17" = 0 := by decide
  have hsf10 : safe_float sC3.sheet "B10" = 2 := by decide
  have hsf11 : safe_float sC3.sheet "B11" = 0 := by decide
  have hfb : calculate_fallback failEv sC3 "E6" = (some 2, sC3) := by
    simp only [calculate_fallback, calculate_fallbackAux, hsf16, hsf17, hsf10, hsf11]
    norm_num
    simp
  have hfb2 : calculate_fallback failEv sC3 "B26" = (Option.none, sC3) := by
    simp only [calculate_fallback, calculate_fallbackAux, hsf16, hsf17]
    norm_num
    simp
  refine ⟨(C3_resolver_three_tiers okEv7 sC3 "E6").1 7 (by decide), ?_, ?_⟩
  · exact ((C3_resolver_three_tiers failEv sC3 "E6").2.1 (by decide) 2 sC3 hfb).1
  · have h3 := (C3_resolver_three_tiers failEv sC3 "B26").2.2 (by decide) sC3 hfb2
    rw [h3]
    decide

/-! ## Claim C4 -/

/-- The inner loop of `_match_first` is exactly a first-match scan of the
records in source order. -/
theorem _find_item_eq (p : List RTok) (items : List QuoteItem) :
    _find_item p items = items.find? (fun it => rsearch p (nameKey it)) := by
  induction items with
  | nil => rfl
  | cons it rest ih =>
    rw [_find_item, List.find?_cons]
    cases h : rsearch p (nameKey it)
    · simp [h, ih]
    · simp [h]

/-- `_match_first` returns absent exactly when no pattern of the list
matches any record. -/
theorem _match_first_none_iff (items : List QuoteItem) (pats : List (List RTok)) :
    _match_first items pats = Option.none ↔
      ∀ p ∈ pats, ∀ it ∈ items, rsearch p (nameKey it) = false := by
  induction pats with
  | nil => simp [_match_first]
  | cons p ps ih =>
    rw [_match_first]
    cases h : _find_item p items with
    | some it =>
      have hx : items.find? (fun it => rsearch p (nameKey it)) = some it :=
        (_find_item_eq p items) ▸ h
      have hit : rsearch p (nameKey it) = true := by
        have h2 := List.find?_some hx
        simpa using h2
      have hmem : it ∈ items := List.mem_of_find?_eq_some hx
      refine iff_of_false (by simp) (fun hall => ?_)
      have h3 := hall p (by simp) it hmem
      rw [hit] at h3
      exact Bool.noConfusion h3
    | none =>
      have hx : items.find? (fun it => rsearch p (nameKey it)) = Option.none :=
        (_find_item_eq p items) ▸ h
      have hnone : ∀ it ∈ items, rsearch p (nameKey it) = false := by
        intro it hmem
        have := List.find?_eq_none.mp hx it hmem
        simpa using this
      rw [ih]
      constructor
      · intro hps q hq it hmem
        rcases List.mem_cons.mp hq with rfl | hq'
        · exact hnone it hmem
        · exact hps q hq' it hmem
      · intro hall q hq it hmem
        exact hall q (List.mem_cons_of_mem p hq) it hmem

/-- Quote records for the spec's §8 matcher scenario. -/
def spotI : QuoteItem := ⟨some (PyVal.str "EUA Spot"), PyVal.none, PyVal.none, PyVal.none⟩

/-- The "EUA 3M" record. -/
def m3I : QuoteItem := ⟨some (PyVal.str "EUA 3M"), PyVal.none, PyVal.none, PyVal.none⟩

/-- The "EUA Dec-25" record. -/
def decI : QuoteItem := ⟨some (PyVal.str "EUA Dec-25"), PyVal.none, PyVal.none, PyVal.none⟩

/-- A record whose name never matches any pattern. -/
def cerI : QuoteItem := ⟨some (PyVal.str "CER Spot"), PyVal.none, PyVal.none, PyVal.none⟩

/-- Claim C4: the Instrument Matcher selects by first-match over the
ordered cascade.  A hit in the primary 3-month pattern list is returned as
is; the fallback list is consulted exactly when no primary pattern matches
any record; within one pattern the records are scanned in source order
(first-match, `List.find?`); the result is absent iff no pattern of either
list matches any record.  Concretely: among "EUA Spot", "EUA 3M",
"EUA Dec-25" the "EUA 3M" record is picked; "EUA Spot" alone is picked via
the fallback list; a list with no EUA-like name yields absent. -/
theorem C4_matcher_cascade :
    (∀ items it, _match_first items EUA_3M_PATTERNS = some it →
      pick_eua_3m_item items = some it) ∧
    (∀ items, _match_first items EUA_3M_PATTERNS = Option.none →
      pick_eua_3m_item items = _match_first items EUA_FALLBACK_PATTERNS) ∧
    (∀ p items, _find_item p items = items.find? (fun it => rsearch p (nameKey it))) ∧
    (∀ items, pick_eua_3m_item items = Option.none ↔
      ∀ p ∈ EUA_3M_PATTERNS ++ EUA_FALLBACK_PATTERNS, ∀ it ∈ items,
        rsearch p (nameKey it) = false) ∧
    pick_eua_3m_item [spotI, m3I, decI] = some m3I ∧
    (_match_first [spotI] EUA_3M_PATTERNS = Option.none ∧
      pick_eua_3m_item [spotI] = some spotI) ∧
    pick_eua_3m_item [cerI] = Option.none := by
  refine ⟨?_, ?_, _find_item_eq, ?_, by decide, by decide, by decide⟩
  · intro items it h
    rw [pick_eua_3m_item, h]
  · intro items h
    rw [pick_eua_3m_item, h]
  · intro items
    rw [pick_eua_3m_item]
    cases h : _match_first items EUA_3M_PATTERNS with
    | some it =>
      refine iff_of_false (by simp) (fun hall => ?_)
      have : _match_first items EUA_3M_PATTERNS = Option.none :=
        (_match_first_none_iff items EUA_3M_PATTERNS).mpr
          (fun p hp it' hmem => hall p (List.mem_append_left _ hp) it' hmem)
      rw [h] at this
      exact Option.noConfusion this
    | none =>
      rw [_match_first_none_iff]
      have hprim := (_match_first_none_iff items EUA_3M_PATTERNS).mp h
      constructor
      · intro hfb p hp it hmem
        rcases List.mem_append.mp hp with hp' | hp'
        · exact hprim p hp' it hmem
        · exact hfb p hp' it hmem
      · intro hall p hp it hmem
        exact hall p (List.mem_append_right _ hp) it hmem

/-- Witness for C4: the conditional clauses of the cascade theorem applied
at the concrete record lists of the scenario. -/
theorem C4_matcher_cascade_witness :
    pick_eua_3m_item [m3I] = some m3I ∧
    pick_eua_3m_item [spotI] = _match_first [spotI] EUA_FALLBACK_PATTERNS := by
  constructor
  · exact C4_matcher_cascade.1 [m3I] m3I (by decide)
  · exact C4_matcher_cascade.2.1 [spotI] (by decide)

/-! ## Claim C5 -/

/-- `set_value` leaves the lookup sheet untouched. -/
theorem set_value_lookup {σ : Type} (E : Evaluator σ) (s : State σ) (cell : String) (v : PyVal) :
    (set_value E s cell v).lookup = s.lookup := by
  rw [set_value]
  cases E.setCell s.ev (xl_addr "Ship Estimator" cell) v <;> rfl

/-- The evaluator state after `set_value`: updated when the evaluator
accepts the write, unchanged when it raises. -/
theorem set_value_ev {σ : Type} (E : Evaluator σ) (s : State σ) (cell : String) (v : PyVal) :
    (set_value E s cell v).ev =
      match E.setCell s.ev (xl_addr "Ship Estimator" cell) v with
      | some e2 => e2
      | Option.none => s.ev := by
  rw [set_value]
  cases E.setCell s.ev (xl_addr "Ship Estimator" cell) v <;> rfl

set_option maxHeartbeats 1000000 in
/-- When the fallback table yields no value it also leaves the state
untouched (absent is only produced by the zero-days guard or by an
unrecognised cell, both before any dependent resolution). -/
theorem calculate_fallbackAux_none_state {σ : Type}
    (gv : State σ → String → Option ℚ × State σ) (s : State σ) (cell : String)
    (h : (calculate_fallbackAux gv s cell).1 = Option.none) :
    (calculate_fallbackAux gv s cell).2 = s := by
  rw [calculate_fallbackAux] at h ⊢
  by_cases g : safe_float s.sheet "B16" + safe_float s.sheet "B17" = 0
  · rw [if_pos g]
  · rw [if_neg g] at h ⊢
    by_cases c0 : cell = "B18"
    · rw [if_pos c0] at h
      exact absurd h (by simp)
    · rw [if_neg c0] at h ⊢
      by_cases c1 : cell = "E6"
      · rw [if_pos c1] at h
        exact absurd h (by simp)
      · rw [if_neg c1] at h ⊢
        by_cases c2 : cell = "E7"
        · rw [if_pos c2] at h
          exact absurd h (by simp)
        · rw [if_neg c2] at h ⊢
          by_cases c3 : cell = "E8"
          · rw [if_pos c3] at h
            exact absurd h (by simp)
          · rw [if_neg c3] at h ⊢
            by_cases c4 : cell = "E9"
            · rw [if_pos c4] at h
              exact absurd h (by simp)
            · rw [if_neg c4] at h ⊢
              by_cases c5 : cell = "E10"
              · rw [if_pos c5] at h
                exact absurd h (by simp)
              · rw [if_neg c5] at h ⊢
                by_cases c6 : cell = "E11"
                · rw [if_pos c6] at h
                  exact absurd h (by simp)
                · rw [if_neg c6] at h ⊢
                  by_cases c7 : cell = "E12"
                  · rw [if_pos c7] at h
                    exact absurd h (by simp)
                  · rw [if_neg c7] at h ⊢
                    by_cases c8 : cell = "E13"
                    · rw [if_pos c8] at h
                      exact absurd h (by simp)
                    · rw [if_neg c8] at h ⊢
                      by_cases c9 : cell = "E14"
                      · rw [if_pos c9] at h
                        exact absurd h (by simp)
                      · rw [if_neg c9] at h ⊢
                        by_cases c10 : cell = "E15"
                        · rw [if_pos c10] at h
                          exact absurd h (by simp)
                        · rw [if_neg c10] at h ⊢
                          by_cases cy : cell = "E16" ∨ cell = "E17" ∨ cell = "E18" ∨ cell = "E19"
                          · rw [if_pos cy] at h
                            exact absurd h (by simp)
                          · rw [if_neg cy] at h ⊢
                            by_cases cz : cell = "E21"
                            · rw [if_pos cz] at h
                              exact absurd h (by simp)
                            · rw [if_neg cz]

/-- The same for `calculate_fallback`. -/
theorem calculate_fallback_none_state {σ : Type} (E : Evaluator σ) (s : State σ) (cell : String)
    (h : (calculate_fallback E s cell).1 = Option.none) :
    (calculate_fallback E s cell).2 = s := by
  rw [calculate_fallback] at h ⊢
  exact calculate_fallbackAux_none_state _ s cell h

/-- State with sea_days = 1 and fuel_sea = 5 (E6's fallback is live). -/
def sC5 : State Unit :=
  { sheet := fun k => if k = "B16" then PyVal.num 1 else if k = "B10" then PyVal.num 5
      else PyVal.none,
    lookup := fun _ => PyVal.none, ev := () }

/-- An evaluator that counts its writes and reports the count as every
cell's value: a legal collaborator under the source's interface, for which
`set_value` is observably not idempotent. -/
def cntEv : Evaluator ℕ :=
  { evaluate := fun n _ => some (PyVal.num (mkRat n 1)), setCell := fun n _ _ => some (n + 1) }

/-- The all-empty state over the counting evaluator. -/
def s0N : State ℕ :=
  { sheet := fun _ => PyVal.none, lookup := fun _ => PyVal.none, ev := 0 }

/-- Counterexample to C5 as stated.  (1) `assign(m, v)` followed by
`resolve(m)` does not return `v` regardless of prior state: after assigning
99 to E6 in a state with sea_days = 1, fuel_sea = 5 and a failing live
evaluator, the resolver returns E6's fallback value 5, not 99 (the fallback
formula shadows the assigned value).  (2) Assigning twice is not observably
the same as assigning once for every legal evaluator collaborator: under a
write-counting evaluator the two resulting states answer `resolve`
differently. -/
theorem C5_assign_counterexample :
    ((get_value failEv (set_value failEv sC5 "E6" (PyVal.num 99)) "E6").1 = some 5 ∧
      (5 : ℚ) ≠ 99) ∧
    ((set_value cntEv (set_value cntEv s0N "B26" (PyVal.num 1)) "B26" (PyVal.num 1)).ev = 2 ∧
      (set_value cntEv s0N "B26" (PyVal.num 1)).ev = 1 ∧
      evalNum cntEv
        (set_value cntEv (set_value cntEv s0N "B26" (PyVal.num 1)) "B26" (PyVal.num 1))
        "B26" = some (mkRat 2 1) ∧
      evalNum cntEv (set_value cntEv s0N "B26" (PyVal.num 1)) "B26" = some (mkRat 1 1) ∧
      mkRat 2 1 ≠ mkRat 1 1) := by
  refine ⟨⟨?_, by decide⟩, by decide, by decide, by decide, by decide, by decide⟩
  have h16 : safe_float (set_value failEv sC5 "E6" (PyVal.num 99)).sheet "B16" = 1 := by
    simp [safe_float, set_value_sheet, sC5]
  have h17 : safe_float (set_value failEv sC5 "E6" (PyVal.num 99)).sheet "B17" = 0 := by
    simp [safe_float, set_value_sheet, sC5]
  have h10 : safe_float (set_value failEv sC5 "E6" (PyVal.num 99)).sheet "B10" = 5 := by
    simp [safe_float, set_value_sheet, sC5]
  have h11 : safe_float (set_value failEv sC5 "E6" (PyVal.num 99)).sheet "B11" = 0 := by
    simp [safe_float, set_value_sheet, sC5]
  have hfb : (calculate_fallback failEv (set_value failEv sC5 "E6" (PyVal.num 99)) "E6").1 =
      some 5 := by
    simp only [calculate_fallback, calculate_fallbackAux, h16, h17, h10, h11]
    norm_num
    simp
  rw [get_value_eq]
  have hev : evalNum failEv (set_value failEv sC5 "E6" (PyVal.num 99)) "E6" = Option.none := rfl
  rw [hev]
  rcases hq : calculate_fallback failEv (set_value failEv sC5 "E6" (PyVal.num 99)) "E6" with ⟨v, s2⟩
  rw [hq] at hfb
  simp only at hfb
  rw [hfb]

/-- Claim C5 as amended: `assign` is total and unconditionally overwrites
the sheet store; it overwrites the evaluator's backing state exactly when
the evaluator accepts the write (the source swallows the evaluator's
exception); it is idempotent on the sheet store, and observably idempotent
whenever the evaluator's cell-write operation is; and `assign(m, v)`
followed by `resolve(m)` returns `v` whenever the live evaluator yields no
number for `m` and `m` has no applicable fallback formula — a live value or
an applicable formula takes precedence over the assigned value. -/
theorem C5_assign_amended {σ : Type} (E : Evaluator σ) (s : State σ) (m : String) (v : ℚ)
    (w : PyVal) :
    (set_value E s m w).sheet m = w ∧
    (∀ e2, E.setCell s.ev (xl_addr "Ship Estimator" m) w = some e2 →
      (set_value E s m w).ev = e2) ∧
    (E.setCell s.ev (xl_addr "Ship Estimator" m) w = Option.none →
      (set_value E s m w).ev = s.ev) ∧
    (∀ k, (set_value E (set_value E s m w) m w).sheet k = (set_value E s m w).sheet k) ∧
    ((∀ e e2, E.setCell e (xl_addr "Ship Estimator" m) w = some e2 →
        E.setCell e2 (xl_addr "Ship Estimator" m) w = some e2) →
      set_value E (set_value E s m w) m w = set_value E s m w) ∧
    (evalNum E (set_value E s m (PyVal.num v)) m = Option.none →
      (calculate_fallback E (set_value E s m (PyVal.num v)) m).1 = Option.none →
      (get_value E (set_value E s m (PyVal.num v)) m).1 = some v) := by
  refine ⟨?_, ?_, ?_, ?_, ?_, ?_⟩
  · rw [set_value_sheet, if_pos rfl]
  · intro e2 h
    rw [set_value_ev, h]
  · intro h
    rw [set_value_ev, h]
  · intro k
    simp only [set_value_sheet]
    by_cases hk : k = m <;> simp [hk]
  · intro hid
    have hsheet : (set_value E (set_value E s m w) m w).sheet = (set_value E s m w).sheet := by
      funext k
      simp only [set_value_sheet]
      by_cases hk : k = m <;> simp [hk]
    have hlk : (set_value E (set_value E s m w) m w).lookup = (set_value E s m w).lookup := by
      simp only [set_value_lookup]
    have hev : (set_value E (set_value E s m w) m w).ev = (set_value E s m w).ev := by
      simp only [set_value_ev]
      cases h : E.setCell s.ev (xl_addr "Ship Estimator" m) w with
      | some e2 => simp [hid s.ev e2 h]
      | none => simp [h]
    cases hL : set_value E (set_value E s m w) m w
    cases hR : set_value E s m w
    simp_all
  · intro hev hfb
    rw [get_value_eq, hev, hfb, calculate_fallback_none_state E _ m hfb, set_value_sheet,
      if_pos rfl]
    rfl

/-- The all-empty state over the failing evaluator. -/
def s0U : State Unit :=
  { sheet := fun _ => PyVal.none, lookup := fun _ => PyVal.none, ev := () }

/-- Witness for the amended C5: on an empty sheet with a failing evaluator,
assigning 5 to B26 (an input with no fallback formula) and resolving B26
returns 5; and the sheet store holds the assigned value. -/
theorem C5_assign_amended_witness :
    (get_value failEv (set_value failEv s0U "B26" (PyVal.num 5)) "B26").1 = some 5 ∧
    (set_value failEv s0U "B26" (PyVal.num 5)).sheet "B26" = PyVal.num 5 := by
  have h16 : safe_float (set_value failEv s0U "B26" (PyVal.num 5)).sheet "B16" = 0 := by
    simp [safe_float, set_value_sheet, s0U]
  have h17 : safe_float (set_value failEv s0U "B26" (PyVal.num 5)).sheet "B17" = 0 := by
    simp [safe_float, set_value_sheet, s0U]
  have hfb : (calculate_fallback failEv (set_value failEv s0U "B26" (PyVal.num 5)) "B26").1 =
      Option.none := by
    rw [calculate_fallback, calculate_fallbackAux]
    rw [h16, h17]
    rw [if_pos (by norm_num)]
  constructor
  · exact (C5_assign_amended failEv s0U "B26" 5 (PyVal.num 5)).2.2.2.2.2 rfl hfb
  · exact (C5_assign_amended failEv s0U "B26" 5 (PyVal.num 5)).1

/-! ## Claim C6 -/

/-- Claim C6: when the primary quote fetch raises and the secondary scrape
fails (for any token and any prior state), the cascade surfaces no source
label and no ticker price, leaves the state untouched through steps 1–2,
and then assigns the fixed default 67.6 to eua_price (B26) if and only if
B26 still resolves to absent; when it does, the final sheet store holds
67.6.  The default step is a total function of the state (it cannot
fail). -/
theorem C6_autofill_default {σ : Type} (E : Evaluator σ) (s : State σ) (token : String) :
    (autofill E token Option.none Option.none s).2.1 = Option.none ∧
    (autofill E token Option.none Option.none s).2.2.2 = Option.none ∧
    (autofill E token Option.none Option.none s).1 =
      (if (get_value E s "B26").1 = Option.none
        then set_value E (get_value E s "B26").2 "B26" (PyVal.num 67.6)
        else (get_value E s "B26").2) ∧
    ((get_value E s "B26").1 = Option.none →
      (autofill E token Option.none Option.none s).1.sheet "B26" = PyVal.num 67.6) := by
  have hstep : autofill E token Option.none Option.none s =
      ((if (get_value E s "B26").1 = Option.none
          then set_value E (get_value E s "B26").2 "B26" (PyVal.num 67.6)
          else (get_value E s "B26").2), Option.none, Option.none, Option.none) := by
    rw [autofill]
    by_cases ht : token ≠ "" ∧ token ≠ "YOUR_VERTIS_TOKEN_HERE"
    · rw [if_pos ht]
      simp
    · rw [if_neg ht]
      simp
  refine ⟨by rw [hstep], by rw [hstep], by rw [hstep], ?_⟩
  intro h
  rw [hstep]
  simp only [h, if_pos]
  rw [set_value_sheet, if_pos rfl]

/-- Witness for C6: with a failing evaluator, an empty sheet and both
collaborators failing, the cascade reports no source and B26 ends at the
default 67.6. -/
theorem C6_autofill_default_witness :
    (autofill failEv "t" Option.none Option.none s0U).2.1 = Option.none ∧
    (autofill failEv "t" Option.none Option.none s0U).1.sheet "B26" = PyVal.num 67.6 := by
  have h16 : safe_float s0U.sheet "B16" = 0 := by decide
  have h17 : safe_float s0U.sheet "B17" = 0 := by decide
  have hfb : calculate_fallback failEv s0U "B26" = (Option.none, s0U) := by
    rw [calculate_fallback, calculate_fallbackAux]
    rw [h16, h17]
    rw [if_pos (by norm_num)]
  have hG : (get_value failEv s0U "B26").1 = Option.none := by
    rw [get_value_eq]
    have hev : evalNum failEv s0U "B26" = Option.none := rfl
    rw [hev, hfb]
    decide
  exact ⟨(C6_autofill_default failEv s0U "t").1,
    (C6_autofill_default failEv s0U "t").2.2.2 hG⟩

/-! ## Claim C7 -/

/-- Claim C7: the price formatter quantizes the exact decimal reading of
the price to 2 fractional digits with round-half-even, prefixes €, £, $
for EUR, GBP, USD, renders "amount code" for unknown codes, and degrades
to the concatenation of the raw value and the code when decimal parsing
fails.  Shown on the spec's concrete cases (67.0/EUR → "€67.00";
"not-a-number"/XYZ → "not-a-number XYZ"), on both tie directions of the
half-even rounding (0.125 → 0.12, 0.135 → 0.14), for every failing price
value, and on the exact-tie characterisation of the rounding for all
integers. -/
theorem C7_price_formatter :
    _fmt_price (PyVal.num 67) "EUR" = "€67.00" ∧
    _fmt_price (PyVal.num 1) "GBP" = "£1.00" ∧
    _fmt_price (PyVal.num (mkRat 25 10)) "USD" = "$2.50" ∧
    _fmt_price (PyVal.num 5) "XYZ" = "5.00 XYZ" ∧
    _fmt_price (PyVal.str "not-a-number") "XYZ" = "not-a-number XYZ" ∧
    (∀ p c, pyDecimalOfVal p = Option.none →
      _fmt_price p c = pyStrip (pyStr p ++ " " ++ c)) ∧
    _fmt_price (PyVal.num (mkRat 125 1000)) "EUR" = "€0.12" ∧
    _fmt_price (PyVal.num (mkRat 135 1000)) "EUR" = "€0.14" ∧
    (∀ n : ℤ, roundHalfEvenCents ((2 * (n : ℚ) + 1) / 200) =
      if n % 2 = 0 then n else n + 1) := by
  have r67 : roundHalfEvenCents 67 = 6700 := by norm_num [roundHalfEvenCents]
  have r1 : roundHalfEvenCents 1 = 100 := by norm_num [roundHalfEvenCents]
  have r25 : roundHalfEvenCents (mkRat 25 10) = 250 := by
    norm_num [roundHalfEvenCents, Rat.mkRat_eq_div]
  have r5 : roundHalfEvenCents 5 = 500 := by norm_num [roundHalfEvenCents]
  have r125 : roundHalfEvenCents (mkRat 125 1000) = 12 := by
    norm_num [roundHalfEvenCents, Rat.mkRat_eq_div]
  have r135 : roundHalfEvenCents (mkRat 135 1000) = 14 := by
    norm_num [roundHalfEvenCents, Rat.mkRat_eq_div]
  refine ⟨?_, ?_, ?_, ?_, by decide, ?_, ?_, ?_, ?_⟩
  · simp only [_fmt_price, pyDecimalOfVal, r67]
    decide
  · simp only [_fmt_price, pyDecimalOfVal, r1]
    decide
  · simp only [_fmt_price, pyDecimalOfVal, r25]
    decide
  · simp only [_fmt_price, pyDecimalOfVal, r5]
    decide
  · intro p c h
    simp only [_fmt_price, h]
  · simp only [_fmt_price, pyDecimalOfVal, r125]
    decide
  · simp only [_fmt_price, pyDecimalOfVal, r135]
    decide
  · intro n
    have hy : (100 : ℚ) * ((2 * (n : ℚ) + 1) / 200) = (n : ℚ) + 1/2 := by ring
    have hf : ⌊(n : ℚ) + 1/2⌋ = n := by
      rw [Int.floor_eq_iff]
      constructor
      · simp
      · linarith
    simp only [roundHalfEvenCents]
    rw [hy, hf]
    have hr : (n : ℚ) + 1/2 - (n : ℤ) = 1/2 := by ring
    rw [hr]
    norm_num

/-- Witness for C7: the degraded path applied to the non-numeric price
"abc" with currency "JPY". -/
theorem C7_price_formatter_witness :
    _fmt_price (PyVal.str "abc") "JPY" = pyStrip (pyStr (PyVal.str "abc") ++ " " ++ "JPY") := by
  exact C7_price_formatter.2.2.2.2.2.1 (PyVal.str "abc") "JPY" (by decide)

/-! ## Claim C8 -/

/-- A fuel type that is not in the options list selects coefficient row 0. -/
theorem cf_row_of_not_mem (lookup : String → PyVal) (ft : PyVal)
    (h : ft ∉ fuel_options lookup) : cf_row lookup ft = 0 := by
  have hc : (fuel_options lookup).contains ft = false := by
    simpa using h
  rw [cf_row, hc]
  rfl

/-- Claim C8: in the annex2_co2 (E7) fallback, the emission coefficient is
looked up positionally by the selected fuel type's index, and for every
selected fuel type not present in the list row index 0 is used silently:
whenever the day guard passes, E7 yields exactly
total_fuel · coefficient(B43) — a number, never absent and never an
error. -/
theorem C8_fuel_coefficient_default :
    (∀ (lookup : String → PyVal) (ft : PyVal), ft ∉ fuel_options lookup →
      cf_row lookup ft = 0) ∧
    (∀ (σ : Type) (E : Evaluator σ) (s : State σ),
      safe_float s.sheet "B16" + safe_float s.sheet "B17" ≠ 0 →
      s.sheet "B19" ∉ fuel_options s.lookup →
      (calculate_fallback E s "E7").1 =
        some ((safe_float s.sheet "B10" * safe_float s.sheet "B16" +
            safe_float s.sheet "B11" * safe_float s.sheet "B17") *
          safe_float s.lookup "B43")) := by
  constructor
  · exact fun l ft h => cf_row_of_not_mem l ft h
  · intro σ E s hguard hmem
    rw [calculate_fallback, calculate_fallbackAux]
    rw [if_neg hguard]
    rw [if_neg (by decide : ¬("E7" : String) = "B18")]
    rw [if_neg (by decide : ¬("E7" : String) = "E6")]
    rw [if_pos rfl]
    simp only [cf_row_of_not_mem _ _ hmem]
    have haddr : ("B" ++ toString (43 + 0) : String) = "B43" := by decide
    rw [haddr]

/-- State for the C8 witness: fuel type "XYZ" not among the options
([only "HFO"]), sea_days = 1, fuel_sea = 3, coefficient at row 0 is 2. -/
def sC8 : State Unit :=
  { sheet := fun k => if k = "B16" then PyVal.num 1 else if k = "B10" then PyVal.num 3
      else if k = "B19" then PyVal.str "XYZ" else PyVal.none,
    lookup := fun k => if k = "A43" then PyVal.str "HFO" else if k = "B43" then PyVal.num 2
      else PyVal.none, ev := () }

/-- Witness for C8: the unmatched fuel type "XYZ" silently uses the row-0
coefficient 2, giving E7 = (3·1+0·0)·2 = 6. -/
theorem C8_fuel_coefficient_default_witness :
    (calculate_fallback failEv sC8 "E7").1 = some 6 := by
  have h16 : safe_float sC8.sheet "B16" = 1 := by decide
  have h17 : safe_float sC8.sheet "B17" = 0 := by decide
  have h10 : safe_float sC8.sheet "B10" = 3 := by decide
  have h11 : safe_float sC8.sheet "B11" = 0 := by decide
  have hcf : safe_float sC8.lookup "B43" = 2 := by decide
  have h := C8_fuel_coefficient_default.2 Unit failEv sC8
    (by rw [h16, h17]; norm_num) (by decide)
  rw [h, h16, h17, h10, h11, hcf]
  norm_num

/-! ## Claim C10 -/

/-- A record selected by `_match_first` matches one of the patterns of the
list. -/
theorem _match_first_some_search (items : List QuoteItem) (pats : List (List RTok))
    (it : QuoteItem) (h : _match_first items pats = some it) :
    ∃ p ∈ pats, rsearch p (nameKey it) = true := by
  induction pats with
  | nil => simp [_match_first] at h
  | cons p ps ih =>
    rw [_match_first] at h
    cases hf : _find_item p items with
    | some it2 =>
      rw [hf] at h
      have h2 : it2 = it := by
        simpa using h
      subst h2
      have hs := List.find?_some ((_find_item_eq p items) ▸ hf)
      exact ⟨p, List.mem_cons_self p ps, by simpa using hs⟩
    | none =>
      rw [hf] at h
      obtain ⟨q, hq, hr⟩ := ih h
      exact ⟨q, List.mem_cons_of_mem p hq, hr⟩

/-- Claim C10: the matcher is total over arbitrary records.  A record
lacking the `product_name` key is matched against the empty string (the
stringified, stripped default), no primary or fallback pattern matches the
empty string, and therefore a record without a product name is never the
selected one. -/
theorem C10_matcher_missing_name :
    ((EUA_3M_PATTERNS ++ EUA_FALLBACK_PATTERNS).all (fun p => !rsearch p "")) = true ∧
    (∀ it : QuoteItem, it.product_name = Option.none → nameKey it = "") ∧
    (∀ items it, pick_eua_3m_item items = some it → it.product_name ≠ Option.none) := by
  have hall : ∀ p ∈ EUA_3M_PATTERNS ++ EUA_FALLBACK_PATTERNS, rsearch p "" = false := by
    intro p hp
    simp only [EUA_3M_PATTERNS, EUA_FALLBACK_PATTERNS, List.cons_append, List.nil_append,
      List.mem_cons, List.not_mem_nil, or_false] at hp
    rcases hp with rfl | rfl | rfl | rfl | rfl | rfl <;> decide
  have hkey : ∀ it : QuoteItem, it.product_name = Option.none → nameKey it = "" := by
    intro it h
    rw [nameKey, h]
    decide
  refine ⟨by decide, hkey, ?_⟩
  intro items it hpick hnone
  have hsel : ∃ p ∈ EUA_3M_PATTERNS ++ EUA_FALLBACK_PATTERNS,
      rsearch p (nameKey it) = true := by
    rw [pick_eua_3m_item] at hpick
    cases h1 : _match_first items EUA_3M_PATTERNS with
    | some it2 =>
      rw [h1] at hpick
      have h2 : it2 = it := by simpa using hpick
      subst h2
      obtain ⟨p, hp, hr⟩ := _match_first_some_search items EUA_3M_PATTERNS it2 h1
      exact ⟨p, List.mem_append_left _ hp, hr⟩
    | none =>
      rw [h1] at hpick
      obtain ⟨p, hp, hr⟩ := _match_first_some_search items EUA_FALLBACK_PATTERNS it hpick
      exact ⟨p, List.mem_append_right _ hp, hr⟩
  obtain ⟨p, hp, hr⟩ := hsel
  rw [hkey it hnone] at hr
  rw [hall p hp] at hr
  exact Bool.noConfusion hr

/-- Witness for C10: a selected record has a product name — shown for a
one-record list, and the missing-name key normalisation at a concrete
record. -/
theorem C10_matcher_missing_name_witness :
    m3I.product_name ≠ Option.none ∧
    nameKey ⟨Option.none, PyVal.none, PyVal.none, PyVal.none⟩ = "" := by
  constructor
  · exact C10_matcher_missing_name.2.2 [m3I] m3I (by decide)
  · exact C10_matcher_missing_name.2.1 ⟨Option.none, PyVal.none, PyVal.none, PyVal.none⟩ rfl

/-! ## Claim C9 -/

/-- The guard branch of the fallback table, for any cell. -/
theorem fallbackAux_eq_guard {σ : Type} (gv : State σ → String → Option ℚ × State σ)
    (s : State σ) (cell : String) (h : safe_float s.sheet "B16" + safe_float s.sheet "B17" = 0) :
    calculate_fallbackAux gv s cell = (Option.none, s) := by
  simp only [calculate_fallbackAux]
  rw [if_pos h]

/-- The B18 branch of the fallback table. -/
theorem fallbackAux_eq_B18 {σ : Type} (gv : State σ → String → Option ℚ × State σ)
    (s : State σ) (h : ¬(safe_float s.sheet "B16" + safe_float s.sheet "B17" = 0)) :
    calculate_fallbackAux gv s "B18" = (some (safe_float s.sheet "B16" * safe_float s.sheet "B7" + safe_float s.sheet "B17" * safe_float s.sheet "B8"), s) := by
  simp only [calculate_fallbackAux]
  rw [if_neg h]
  simp

/-- The E6 branch of the fallback table. -/
theorem fallbackAux_eq_E6 {σ : Type} (gv : State σ → String → Option ℚ × State σ)
    (s : State σ) (h : ¬(safe_float s.sheet "B16" + safe_float s.sheet "B17" = 0)) :
    calculate_fallbackAux gv s "E6" = (some ((safe_float s.sheet "B10" * safe_float s.sheet "B16" + safe_float s.sheet "B11" * safe_float s.sheet "B17") / (safe_float s.sheet "B16" + safe_float s.sheet "B17")), s) := by
  simp only [calculate_fallbackAux]
  rw [if_neg h]
  simp

/-- The E7 branch of the fallback table. -/
theorem fallbackAux_eq_E7 {σ : Type} (gv : State σ → String → Option ℚ × State σ)
    (s : State σ) (h : ¬(safe_float s.sheet "B16" + safe_float s.sheet "B17" = 0)) :
    calculate_fallbackAux gv s "E7" = (some ((safe_float s.sheet "B10" * safe_float s.sheet "B16" + safe_float s.sheet "B11" * safe_float s.sheet "B17") * safe_float s.lookup ("B" ++ toString (43 + cf_row s.lookup (s.sheet "B19")))), s) := by
  simp only [calculate_fallbackAux]
  rw [if_neg h]
  simp

/-- The E8 branch of the fallback table. -/
theorem fallbackAux_eq_E8 {σ : Type} (gv : State σ → String → Option ℚ × State σ)
    (s : State σ) (h : ¬(safe_float s.sheet "B16" + safe_float s.sheet "B17" = 0)) :
    calculate_fallbackAux gv s "E8" = (some ((gv s "E7").1.getD 0 * (1 - safe_float s.sheet "B21")), (gv s "E7").2) := by
  simp only [calculate_fallbackAux]
  rw [if_neg h]
  simp

/-- The E9 branch of the fallback table. -/
theorem fallbackAux_eq_E9 {σ : Type} (gv : State σ → String → Option ℚ × State σ)
    (s : State σ) (h : ¬(safe_float s.sheet "B16" + safe_float s.sheet "B17" = 0)) :
    calculate_fallbackAux gv s "E9" = (some ((gv s "E7").1.getD 0 - (gv (gv s "E7").2 "E8").1.getD 0), (gv (gv s "E7").2 "E8").2) := by
  simp only [calculate_fallbackAux]
  rw [if_neg h]
  simp

/-- The E10 branch of the fallback table. -/
theorem fallbackAux_eq_E10 {σ : Type} (gv : State σ → String → Option ℚ × State σ)
    (s : State σ) (h : ¬(safe_float s.sheet "B16" + safe_float s.sheet "B17" = 0)) :
    calculate_fallbackAux gv s "E10" = (some ((gv s "E7").1.getD 0 * (safe_float s.sheet "B12" + safe_float s.sheet "B13" * 0.5)), (gv s "E7").2) := by
  simp only [calculate_fallbackAux]
  rw [if_neg h]
  simp

/-- The E11 branch of the fallback table. -/
theorem fallbackAux_eq_E11 {σ : Type} (gv : State σ → String → Option ℚ × State σ)
    (s : State σ) (h : ¬(safe_float s.sheet "B16" + safe_float s.sheet "B17" = 0)) :
    calculate_fallbackAux gv s "E11" = (some ((gv s "E10").1.getD 0 * safe_float s.sheet "B26" * 0.4), (gv s "E10").2) := by
  simp only [calculate_fallbackAux]
  rw [if_neg h]
  simp

/-- The E12 branch of the fallback table. -/
theorem fallbackAux_eq_E12 {σ : Type} (gv : State σ → String → Option ℚ × State σ)
    (s : State σ) (h : ¬(safe_float s.sheet "B16" + safe_float s.sheet "B17" = 0)) :
    calculate_fallbackAux gv s "E12" = (some ((gv s "E9").1.getD 0 * (safe_float s.sheet "B12" + safe_float s.sheet "B13" * 0.5)), (gv s "E9").2) := by
  simp only [calculate_fallbackAux]
  rw [if_neg h]
  simp

/-- The E13 branch of the fallback table. -/
theorem fallbackAux_eq_E13 {σ : Type} (gv : State σ → String → Option ℚ × State σ)
    (s : State σ) (h : ¬(safe_float s.sheet "B16" + safe_float s.sheet "B17" = 0)) :
    calculate_fallbackAux gv s "E13" = (some ((gv s "E7").1.getD 0 * 1.50419), (gv s "E7").2) := by
  simp only [calculate_fallbackAux]
  rw [if_neg h]
  simp

/-- The E14 branch of the fallback table. -/
theorem fallbackAux_eq_E14 {σ : Type} (gv : State σ → String → Option ℚ × State σ)
    (s : State σ) (h : ¬(safe_float s.sheet "B16" + safe_float s.sheet "B17" = 0)) :
    calculate_fallbackAux gv s "E14" = (some ((gv s "E13").1.getD 0 * (1 - 0.0412)), (gv s "E13").2) := by
  simp only [calculate_fallbackAux]
  rw [if_neg h]
  simp

/-- The E15 branch of the fallback table. -/
theorem fallbackAux_eq_E15 {σ : Type} (gv : State σ → String → Option ℚ × State σ)
    (s : State σ) (h : ¬(safe_float s.sheet "B16" + safe_float s.sheet "B17" = 0)) :
    calculate_fallbackAux gv s "E15" = (some ((gv s "E13").1.getD 0 - (gv (gv s "E13").2 "E14").1.getD 0), (gv (gv s "E13").2 "E14").2) := by
  simp only [calculate_fallbackAux]
  rw [if_neg h]
  simp

/-- The E16 branch of the fallback table. -/
theorem fallbackAux_eq_E16 {σ : Type} (gv : State σ → String → Option ℚ × State σ)
    (s : State σ) (h : ¬(safe_float s.sheet "B16" + safe_float s.sheet "B17" = 0)) :
    calculate_fallbackAux gv s "E16" = (some ((gv s "E15").1.getD 0 * safe_float s.sheet "B26" * 0.4), (gv s "E15").2) := by
  simp only [calculate_fallbackAux]
  rw [if_neg h]
  simp

/-- The E17 branch of the fallback table. -/
theorem fallbackAux_eq_E17 {σ : Type} (gv : State σ → String → Option ℚ × State σ)
    (s : State σ) (h : ¬(safe_float s.sheet "B16" + safe_float s.sheet "B17" = 0)) :
    calculate_fallbackAux gv s "E17" = (some ((gv s "E15").1.getD 0 * safe_float s.sheet "B26" * 0.7), (gv s "E15").2) := by
  simp only [calculate_fallbackAux]
  rw [if_neg h]
  simp

/-- The E18 branch of the fallback table. -/
theorem fallbackAux_eq_E18 {σ : Type} (gv : State σ → String → Option ℚ × State σ)
    (s : State σ) (h : ¬(safe_float s.sheet "B16" + safe_float s.sheet "B17" = 0)) :
    calculate_fallbackAux gv s "E18" = (some ((gv s "E15").1.getD 0 * safe_float s.sheet "B26" * 1.0), (gv s "E15").2) := by
  simp only [calculate_fallbackAux]
  rw [if_neg h]
  simp

/-- The E19 branch of the fallback table. -/
theorem fallbackAux_eq_E19 {σ : Type} (gv : State σ → String → Option ℚ × State σ)
    (s : State σ) (h : ¬(safe_float s.sheet "B16" + safe_float s.sheet "B17" = 0)) :
    calculate_fallbackAux gv s "E19" = (some ((gv s "E15").1.getD 0 * safe_float s.sheet "B26" * 1.0), (gv s "E15").2) := by
  simp only [calculate_fallbackAux]
  rw [if_neg h]
  simp

/-- The E21 branch of the fallback table. -/
theorem fallbackAux_eq_E21 {σ : Type} (gv : State σ → String → Option ℚ × State σ)
    (s : State σ) (h : ¬(safe_float s.sheet "B16" + safe_float s.sheet "B17" = 0)) :
    calculate_fallbackAux gv s "E21" = (some ((gv s "E7").1.getD 0 * safe_float s.sheet "B23" * safe_float s.sheet "B26"), (gv s "E7").2) := by
  simp only [calculate_fallbackAux]
  rw [if_neg h]
  simp

/-- The fall-through of the fallback table: an unrecognised cell yields absent. -/
theorem fallbackAux_eq_default {σ : Type} (gv : State σ → String → Option ℚ × State σ)
    (s : State σ) (cell : String) (h : ¬(safe_float s.sheet "B16" + safe_float s.sheet "B17" = 0))
    (h1 : ¬cell = "B18") (h2 : ¬cell = "E6") (h3 : ¬cell = "E7") (h4 : ¬cell = "E8")
    (h5 : ¬cell = "E9") (h6 : ¬cell = "E10") (h7 : ¬cell = "E11") (h8 : ¬cell = "E12")
    (h9 : ¬cell = "E13") (h10 : ¬cell = "E14") (h11 : ¬cell = "E15")
    (hy : ¬(cell = "E16" ∨ cell = "E17" ∨ cell = "E18" ∨ cell = "E19"))
    (hz : ¬cell = "E21") :
    calculate_fallbackAux gv s cell = (Option.none, s) := by
  simp only [calculate_fallbackAux]
  rw [if_neg h]
  rw [if_neg h1]
  rw [if_neg h2]
  rw [if_neg h3]
  rw [if_neg h4]
  rw [if_neg h5]
  rw [if_neg h6]
  rw [if_neg h7]
  rw [if_neg h8]
  rw [if_neg h9]
  rw [if_neg h10]
  rw [if_neg h11]
  rw [if_neg hy]
  rw [if_neg hz]

/-- The input cells that the fallback table reads only through
`safe_float` (the fuel-type cell B19 is read raw and is excluded). -/
def safeFloatInputs : List String :=
  ["B7", "B8", "B10", "B11", "B12", "B13", "B16", "B17", "B21", "B23", "B26"]

/-- Two states that agree everywhere except possibly at the input cell `c`,
where they still agree after `safe_float` coercion (and share evaluator
state and lookup sheet). -/
def Agree {σ : Type} (c : String) (s₁ s₂ : State σ) : Prop :=
  s₁.ev = s₂.ev ∧ s₁.lookup = s₂.lookup ∧ (∀ k, k ≠ c → s₁.sheet k = s₂.sheet k) ∧
    safe_float s₁.sheet c = safe_float s₂.sheet c

/-- Agreeing states have equal `safe_float` reads everywhere. -/
theorem Agree.sf {σ : Type} {c : String} {s₁ s₂ : State σ} (h : Agree c s₁ s₂) :
    ∀ k, safe_float s₁.sheet k = safe_float s₂.sheet k := by
  intro k
  by_cases hk : k = c
  · subst hk
    exact h.2.2.2
  · rw [safe_float, safe_float, h.2.2.1 k hk]

/-- `set_value` with identical arguments preserves agreement. -/
theorem Agree.set_value {σ : Type} {c : String} {s₁ s₂ : State σ} (E : Evaluator σ)
    (h : Agree c s₁ s₂) (cell : String) (v : PyVal) :
    Agree c (set_value E s₁ cell v) (set_value E s₂ cell v) := by
  obtain ⟨hev, hlk, hsheet, hsfc⟩ := h
  refine ⟨?_, ?_, ?_, ?_⟩
  · rw [set_value_ev, set_value_ev, hev]
  · rw [set_value_lookup, set_value_lookup, hlk]
  · intro k hk
    rw [set_value_sheet, set_value_sheet]
    by_cases hkc : k = cell
    · simp [hkc]
    · simp [hkc, hsheet k hk]
  · by_cases hcc : c = cell
    · rw [safe_float, safe_float, set_value_sheet, set_value_sheet, if_pos hcc, if_pos hcc]
    · rw [safe_float, safe_float, set_value_sheet, set_value_sheet, if_neg hcc, if_neg hcc]
      rw [safe_float, safe_float] at hsfc
      exact hsfc

/-- Lockstep lemma for the fallback table: if the dependent resolver `gv₁`/
`gv₂` runs in lockstep over states agreeing off a `safe_float`-read input
cell `c`, so does every formula of the table — a junk value at `c` is
indistinguishable from any other value with the same `safe_float`
reading. -/
theorem fallbackAux_sim {σ : Type} (c : String) (hc : c ∈ safeFloatInputs)
    (gv₁ gv₂ : State σ → String → Option ℚ × State σ)
    (hgv : ∀ s₁ s₂ k, Agree c s₁ s₂ → k ≠ c →
      (gv₁ s₁ k).1 = (gv₂ s₂ k).1 ∧ Agree c (gv₁ s₁ k).2 (gv₂ s₂ k).2)
    (s₁ s₂ : State σ) (cell : String) (hA : Agree c s₁ s₂) :
    (calculate_fallbackAux gv₁ s₁ cell).1 = (calculate_fallbackAux gv₂ s₂ cell).1 ∧
    Agree c (calculate_fallbackAux gv₁ s₁ cell).2 (calculate_fallbackAux gv₂ s₂ cell).2 := by
  have hsf : ∀ k, safe_float s₁.sheet k = safe_float s₂.sheet k := hA.sf
  have hlk : s₁.lookup = s₂.lookup := hA.2.1
  have hB19 : s₁.sheet "B19" = s₂.sheet "B19" :=
    hA.2.2.1 "B19" ((by decide : ∀ x ∈ safeFloatInputs, "B19" ≠ x) c hc)
  have ne7 : "E7" ≠ c := (by decide : ∀ x ∈ safeFloatInputs, "E7" ≠ x) c hc
  have ne8 : "E8" ≠ c := (by decide : ∀ x ∈ safeFloatInputs, "E8" ≠ x) c hc
  have ne9 : "E9" ≠ c := (by decide : ∀ x ∈ safeFloatInputs, "E9" ≠ x) c hc
  have ne10 : "E10" ≠ c := (by decide : ∀ x ∈ safeFloatInputs, "E10" ≠ x) c hc
  have ne13 : "E13" ≠ c := (by decide : ∀ x ∈ safeFloatInputs, "E13" ≠ x) c hc
  have ne14 : "E14" ≠ c := (by decide : ∀ x ∈ safeFloatInputs, "E14" ≠ x) c hc
  have ne15 : "E15" ≠ c := (by decide : ∀ x ∈ safeFloatInputs, "E15" ≠ x) c hc
  by_cases hg : safe_float s₁.sheet "B16" + safe_float s₁.sheet "B17" = 0
  · have hg₂ : safe_float s₂.sheet "B16" + safe_float s₂.sheet "B17" = 0 := by
      rw [← hsf, ← hsf]
      exact hg
    rw [fallbackAux_eq_guard gv₁ s₁ cell hg, fallbackAux_eq_guard gv₂ s₂ cell hg₂]
    exact ⟨rfl, hA⟩
  · have hg₂ : ¬(safe_float s₂.sheet "B16" + safe_float s₂.sheet "B17" = 0) := by
      rw [← hsf, ← hsf]
      exact hg
    by_cases e1 : cell = "B18"
    · subst e1
      rw [fallbackAux_eq_B18 gv₁ s₁ hg, fallbackAux_eq_B18 gv₂ s₂ hg₂]
      exact ⟨by simp only [hsf], hA⟩
    by_cases e2 : cell = "E6"
    · subst e2
      rw [fallbackAux_eq_E6 gv₁ s₁ hg, fallbackAux_eq_E6 gv₂ s₂ hg₂]
      exact ⟨by simp only [hsf], hA⟩
    by_cases e3 : cell = "E7"
    · subst e3
      rw [fallbackAux_eq_E7 gv₁ s₁ hg, fallbackAux_eq_E7 gv₂ s₂ hg₂]
      exact ⟨by simp only [hsf, hlk, hB19], hA⟩
    by_cases e4 : cell = "E8"
    · subst e4
      rw [fallbackAux_eq_E8 gv₁ s₁ hg, fallbackAux_eq_E8 gv₂ s₂ hg₂]
      obtain ⟨h7, hA7⟩ := hgv s₁ s₂ "E7" hA (Ne.symm ne7).symm
      exact ⟨by simp only [h7, hsf], hA7⟩
    by_cases e5 : cell = "E9"
    · subst e5
      rw [fallbackAux_eq_E9 gv₁ s₁ hg, fallbackAux_eq_E9 gv₂ s₂ hg₂]
      obtain ⟨h7, hA7⟩ := hgv s₁ s₂ "E7" hA (Ne.symm ne7).symm
      obtain ⟨h8, hA8⟩ := hgv (gv₁ s₁ "E7").2 (gv₂ s₂ "E7").2 "E8" hA7 (Ne.symm ne8).symm
      exact ⟨by simp only [h7, h8], hA8⟩
    by_cases e6 : cell = "E10"
    · subst e6
      rw [fallbackAux_eq_E10 gv₁ s₁ hg, fallbackAux_eq_E10 gv₂ s₂ hg₂]
      obtain ⟨h7, hA7⟩ := hgv s₁ s₂ "E7" hA (Ne.symm ne7).symm
      exact ⟨by simp only [h7, hsf], hA7⟩
    by_cases e7 : cell = "E11"
    · subst e7
      rw [fallbackAux_eq_E11 gv₁ s₁ hg, fallbackAux_eq_E11 gv₂ s₂ hg₂]
      obtain ⟨h10, hA10⟩ := hgv s₁ s₂ "E10" hA (Ne.symm ne10).symm
      exact ⟨by simp only [h10, hsf], hA10⟩
    by_cases e8 : cell = "E12"
    · subst e8
      rw [fallbackAux_eq_E12 gv₁ s₁ hg, fallbackAux_eq_E12 gv₂ s₂ hg₂]
      obtain ⟨h9, hA9⟩ := hgv s₁ s₂ "E9" hA (Ne.symm ne9).symm
      exact ⟨by simp only [h9, hsf], hA9⟩
    by_cases e9 : cell = "E13"
    · subst e9
      rw [fallbackAux_eq_E13 gv₁ s₁ hg, fallbackAux_eq_E13 gv₂ s₂ hg₂]
      obtain ⟨h7, hA7⟩ := hgv s₁ s₂ "E7" hA (Ne.symm ne7).symm
      exact ⟨by simp only [h7], hA7⟩
    by_cases e10 : cell = "E14"
    · subst e10
      rw [fallbackAux_eq_E14 gv₁ s₁ hg, fallbackAux_eq_E14 gv₂ s₂ hg₂]
      obtain ⟨h13, hA13⟩ := hgv s₁ s₂ "E13" hA (Ne.symm ne13).symm
      exact ⟨by simp only [h13], hA13⟩
    by_cases e11 : cell = "E15"
    · subst e11
      rw [fallbackAux_eq_E15 gv₁ s₁ hg, fallbackAux_eq_E15 gv₂ s₂ hg₂]
      obtain ⟨h13, hA13⟩ := hgv s₁ s₂ "E13" hA (Ne.symm ne13).symm
      obtain ⟨h14, hA14⟩ := hgv (gv₁ s₁ "E13").2 (gv₂ s₂ "E13").2 "E14" hA13 (Ne.symm ne14).symm
      exact ⟨by simp only [h13, h14], hA14⟩
    by_cases e12 : cell = "E16"
    · subst e12
      rw [fallbackAux_eq_E16 gv₁ s₁ hg, fallbackAux_eq_E16 gv₂ s₂ hg₂]
      obtain ⟨h15, hA15⟩ := hgv s₁ s₂ "E15" hA (Ne.symm ne15).symm
      exact ⟨by simp only [h15, hsf], hA15⟩
    by_cases e13 : cell = "E17"
    · subst e13
      rw [fallbackAux_eq_E17 gv₁ s₁ hg, fallbackAux_eq_E17 gv₂ s₂ hg₂]
      obtain ⟨h15, hA15⟩ := hgv s₁ s₂ "E15" hA (Ne.symm ne15).symm
      exact ⟨by simp only [h15, hsf], hA15⟩
    by_cases e14 : cell = "E18"
    · subst e14
      rw [fallbackAux_eq_E18 gv₁ s₁ hg, fallbackAux_eq_E18 gv₂ s₂ hg₂]
      obtain ⟨h15, hA15⟩ := hgv s₁ s₂ "E15" hA (Ne.symm ne15).symm
      exact ⟨by simp only [h15, hsf], hA15⟩
    by_cases e15 : cell = "E19"
    · subst e15
      rw [fallbackAux_eq_E19 gv₁ s₁ hg, fallbackAux_eq_E19 gv₂ s₂ hg₂]
      obtain ⟨h15, hA15⟩ := hgv s₁ s₂ "E15" hA (Ne.symm ne15).symm
      exact ⟨by simp only [h15, hsf], hA15⟩
    by_cases e16 : cell = "E21"
    · subst e16
      rw [fallbackAux_eq_E21 gv₁ s₁ hg, fallbackAux_eq_E21 gv₂ s₂ hg₂]
      obtain ⟨h7, hA7⟩ := hgv s₁ s₂ "E7" hA (Ne.symm ne7).symm
      exact ⟨by simp only [h7, hsf], hA7⟩
    · have hy : ¬(cell = "E16" ∨ cell = "E17" ∨ cell = "E18" ∨ cell = "E19") := by
        intro hor
        rcases hor with h | h | h | h
        · exact e12 h
        · exact e13 h
        · exact e14 h
        · exact e15 h
      rw [fallbackAux_eq_default gv₁ s₁ cell hg e1 e2 e3 e4 e5 e6 e7 e8 e9 e10 e11 hy e16,
        fallbackAux_eq_default gv₂ s₂ cell hg₂ e1 e2 e3 e4 e5 e6 e7 e8 e9 e10 e11 hy e16]
      exact ⟨rfl, hA⟩

/-- Lockstep lemma for the stratified resolver: over states agreeing off a
`safe_float`-read input cell `c`, `get_valueF` produces equal values for
every other cell and preserves agreement, at every depth. -/
theorem get_valueF_sim {σ : Type} (E : Evaluator σ) (c : String) (hc : c ∈ safeFloatInputs) :
    ∀ (n : ℕ) (s₁ s₂ : State σ) (k : String), Agree c s₁ s₂ → k ≠ c →
      (get_valueF E n s₁ k).1 = (get_valueF E n s₂ k).1 ∧
      Agree c (get_valueF E n s₁ k).2 (get_valueF E n s₂ k).2 := by
  intro n
  induction n with
  | zero => exact fun s₁ s₂ k hA _ => ⟨rfl, hA⟩
  | succ n ih =>
    intro s₁ s₂ k hA hk
    have hev : evalNum E s₁ k = evalNum E s₂ k := by
      rw [evalNum, evalNum, hA.1]
    simp only [get_valueF]
    rw [hev]
    cases hx : evalNum E s₂ k with
    | some x => exact ⟨by trivial, hA⟩
    | none =>
      obtain ⟨hr1, hrA⟩ := fallbackAux_sim c hc (get_valueF E n) (get_valueF E n) ih s₁ s₂ k hA
      cases hq : (calculate_fallbackAux (get_valueF E n) s₂ k).1 with
      | some v =>
        have hq1 : (calculate_fallbackAux (get_valueF E n) s₁ k).1 = some v := by
          rw [hr1, hq]
        simp only [hq, hq1]
        exact ⟨trivial, Agree.set_value E hrA k (PyVal.num v)⟩
      | none =>
        have hq1 : (calculate_fallbackAux (get_valueF E n) s₁ k).1 = Option.none := by
          rw [hr1, hq]
        simp only [hq, hq1]
        refine ⟨?_, hrA⟩
        rw [hrA.2.2.1 k hk]

/-- Replacing a junk value at the input cell `c` by the zero it is coerced
to does not change the state sheet except at `c`. -/
def updateSheet {σ : Type} (s : State σ) (c : String) (v : PyVal) : State σ :=
  { sheet := fun k => if k = c then v else s.sheet k, lookup := s.lookup, ev := s.ev }

/-- Sheet with fuel type "HFO" (a string `float()` rejects) present in the
fuel list at row 1, sea_days = 1 and fuel_sea = 1. -/
def sC9 : State Unit :=
  { sheet := fun k => if k = "B16" then PyVal.num 1 else if k = "B10" then PyVal.num 1
      else if k = "B19" then PyVal.str "HFO" else PyVal.none,
    lookup := fun k => if k = "A43" then PyVal.str "AAA" else if k = "A44" then PyVal.str "HFO"
      else if k = "B43" then PyVal.num 1 else if k = "B44" then PyVal.num 5 else PyVal.none,
    ev := () }

/-- Counterexample to C9 as stated: the fuel-type input B19 is an input
cell whose stored value "HFO" cannot be converted to a float, yet it is not
treated as 0.0 — replacing it by 0 changes annex2_co2 (E7) from 5 (row-1
coefficient) to 1 (row-0 coefficient), so a non-numeric input does not
always silently contribute 0 to the formulas that read it. -/
theorem C9_junk_counterexample :
    pyFloat "HFO" = Option.none ∧
    (calculate_fallback failEv sC9 "E7").1 = some 5 ∧
    (calculate_fallback failEv (updateSheet sC9 "B19" (PyVal.num 0)) "E7").1 = some 1 ∧
    (5 : ℚ) ≠ 1 := by
  have h16 : safe_float sC9.sheet "B16" = 1 := by decide
  have h17 : safe_float sC9.sheet "B17" = 0 := by decide
  have h10 : safe_float sC9.sheet "B10" = 1 := by decide
  have h11 : safe_float sC9.sheet "B11" = 0 := by decide
  have hg : ¬(safe_float sC9.sheet "B16" + safe_float sC9.sheet "B17" = 0) := by
    rw [h16, h17]
    norm_num
  have u16 : safe_float (updateSheet sC9 "B19" (PyVal.num 0)).sheet "B16" = 1 := by decide
  have u17 : safe_float (updateSheet sC9 "B19" (PyVal.num 0)).sheet "B17" = 0 := by decide
  have u10 : safe_float (updateSheet sC9 "B19" (PyVal.num 0)).sheet "B10" = 1 := by decide
  have u11 : safe_float (updateSheet sC9 "B19" (PyVal.num 0)).sheet "B11" = 0 := by decide
  have ug : ¬(safe_float (updateSheet sC9 "B19" (PyVal.num 0)).sheet "B16" +
      safe_float (updateSheet sC9 "B19" (PyVal.num 0)).sheet "B17" = 0) := by
    rw [u16, u17]
    norm_num
  refine ⟨by decide, ?_, ?_, by norm_num⟩
  · rw [calculate_fallback, fallbackAux_eq_E7 _ sC9 hg]
    have hrow : cf_row sC9.lookup (sC9.sheet "B19") = 1 := by decide
    rw [hrow]
    have haddr : ("B" ++ toString (43 + 1) : String) = "B44" := by decide
    rw [haddr]
    have hcf : safe_float sC9.lookup "B44" = 5 := by decide
    rw [h16, h17, h10, h11, hcf]
    norm_num
  · rw [calculate_fallback, fallbackAux_eq_E7 _ _ ug]
    have hrow : cf_row (updateSheet sC9 "B19" (PyVal.num 0)).lookup
        ((updateSheet sC9 "B19" (PyVal.num 0)).sheet "B19") = 0 := by decide
    rw [hrow]
    have haddr : ("B" ++ toString (43 + 0) : String) = "B43" := by decide
    rw [haddr]
    have hcf : safe_float (updateSheet sC9 "B19" (PyVal.num 0)).lookup "B43" = 1 := by decide
    rw [u16, u17, u10, u11, hcf]
    norm_num

/-- Claim C9 as amended: inside the fallback calculator every cell read
through `safe_float` whose stored value is absent, is a string `float()`
rejects, or is a list, is coerced to 0.0; and for each of the numeric input
cells (B7, B8, B10–B13, B16, B17, B21, B23, B26 — all the fallback's
`safe_float` ship-sheet reads; the raw-read fuel-type cell B19 is the
exception the counterexample forces), replacing its stored value by the
literal 0 it coerces to changes no fallback result, for any cell, state and
evaluator.  `calculate_fallback` is a total function, so it never raises. -/
theorem C9_junk_inputs_amended :
    (∀ (sheet : String → PyVal) (k : String),
      (sheet k = PyVal.none ∨ (∃ t, sheet k = PyVal.str t ∧ pyFloat t = Option.none) ∨
        sheet k = PyVal.nil ∨ ∃ a b, sheet k = PyVal.cons a b) →
      safe_float sheet k = 0) ∧
    (∀ (σ : Type) (E : Evaluator σ) (s : State σ) (c : String), c ∈ safeFloatInputs →
      safe_float s.sheet c = 0 →
      ∀ cell, (calculate_fallback E s cell).1 =
        (calculate_fallback E (updateSheet s c (PyVal.num 0)) cell).1) := by
  constructor
  · intro sheet k h
    rcases h with h | ⟨t, h, ht⟩ | h | ⟨a, b, h⟩
    · simp [safe_float, h]
    · simp [safe_float, h, ht]
    · simp [safe_float, h]
    · simp [safe_float, h]
  · intro σ E s c hc hz cell
    have hA : Agree c s (updateSheet s c (PyVal.num 0)) := by
      refine ⟨rfl, rfl, ?_, ?_⟩
      · intro k hk
        show s.sheet k = if k = c then PyVal.num 0 else s.sheet k
        rw [if_neg hk]
      · have h2 : (updateSheet s c (PyVal.num 0)).sheet c = PyVal.num 0 := by
          show (if c = c then PyVal.num 0 else s.sheet c) = PyVal.num 0
          rw [if_pos rfl]
        rw [hz, safe_float, h2]
    rw [calculate_fallback, calculate_fallback]
    exact (fallbackAux_sim c hc (get_valueF E 31) (get_valueF E 31)
      (fun a b kk hAk hkk => get_valueF_sim E c hc 31 a b kk hAk hkk)
      s (updateSheet s c (PyVal.num 0)) cell hA).1

/-- Witness for the amended C9: with junk ("n/a") stored in fuel_port
(B11), E6 computes the same value as with 0 there — fuel_port's junk
contributes 0. -/
theorem C9_junk_inputs_amended_witness :
    safe_float (fun _ => PyVal.str "n/a") "B11" = 0 ∧
    (calculate_fallback failEv
        { sheet := fun k => if k = "B16" then PyVal.num 2 else if k = "B11" then PyVal.str "n/a"
            else PyVal.none,
          lookup := fun _ => PyVal.none, ev := () } "E6").1 =
      (calculate_fallback failEv
        (updateSheet
          { sheet := fun k => if k = "B16" then PyVal.num 2 else if k = "B11" then PyVal.str "n/a"
              else PyVal.none,
            lookup := fun _ => PyVal.none, ev := () } "B11" (PyVal.num 0)) "E6").1 := by
  constructor
  · exact C9_junk_inputs_amended.1 (fun _ => PyVal.str "n/a") "B11"
      (Or.inr (Or.inl ⟨"n/a", rfl, by decide⟩))
  · exact C9_junk_inputs_amended.2 Unit failEv _ "B11" (by decide) (by decide) "E6"
